import Mathlib

/-!
# Type-ID registry (`caf/type_id.hpp`) and `caf::optional` (`caf/optional.hpp`)

The registration macros of `type_id.hpp` are embedded as transitions on the
compile-time environment of a translation unit: the value of `__COUNTER__`,
the constants of namespace `caf::id_block`, and the explicit specializations of
`type_id`, `type_by_id`, `type_name` and `type_name_by_id`.  A type is
represented by its fully qualified spelling (two spellings of one type are not
identified).  A transition fails where the
translation unit would be ill-formed (a redefinition, an undeclared constant, a
failed static assertion).  Arithmetic on `type_id_t` is `uint16_t` arithmetic:
operands are promoted to `int`, the result is converted back modulo `2^16`; the
`int` intermediate is an integer (`__COUNTER__` stays far below `2^31`).

`optional<T>` is embedded as a two-state value, its members as functions on it,
and the two `serialize` overloads as functions of the processor's operations.
-/

namespace caf

/-! ## Compile-time environment -/

/-- Conversion of an `int` value to `type_id_t` (`uint16_t`): reduction modulo `2^16`. -/
def to_type_id_t (x : Int) : Nat := (x % 65536).toNat

/-- The first type ID not reserved by CAF and its modules. -/
def first_custom_type_id : Nat := 200

/-- Reasons for which a translation unit is rejected. -/
inductive build_error where
  | redefinition
  | undeclared
  | static_assertion
  deriving DecidableEq, Repr

/-- The published struct `caf::id_block::${project_name}`. -/
structure id_block where
  «begin» : Nat
  «end» : Nat
  deriving DecidableEq, Repr

/-- Compile-time state of a translation unit that includes `type_id.hpp`. -/
structure Env where
  /-- next value produced by `__COUNTER__` -/
  COUNTER : Nat
  /-- the constants `id_block::${project_name}_type_id_counter_init` -/
  type_id_counter_init : List (String × Nat)
  /-- the constants `id_block::${project_name}_first_type_id` -/
  first_type_id : List (String × Nat)
  /-- the constants `id_block::${project_name}_last_type_id` -/
  last_type_id : List (String × Nat)
  /-- the structs `id_block::${project_name}` -/
  id_blocks : List (String × id_block)
  /-- the specializations `type_id<T>`, with their member `value` -/
  type_id : List (String × Nat)
  /-- the specializations `type_by_id<V>`, with their member `type` -/
  type_by_id : List (Nat × String)
  /-- the specializations `type_name<T>`, with their member `value` -/
  type_name : List (String × String)
  /-- the specializations `type_name_by_id<V>`, with the `T` of their base `type_name<T>` -/
  type_name_by_id : List (Nat × String)
  /-- the atom constants `${atom_namespace}::${atom_name}_v`, with their text -/
  atom_constants : List ((String × String) × String)
  deriving DecidableEq, Repr

/-- State at the top of `type_id.hpp`, before line 158: only `type_name<void>` is
specialized (lines 54-57); `COUNTER` is whatever earlier code left. -/
def Env.init (COUNTER : Nat) : Env :=
  { COUNTER := COUNTER
    type_id_counter_init := []
    first_type_id := []
    last_type_id := []
    id_blocks := []
    type_id := []
    type_by_id := []
    type_name := [("void", "void")]
    type_name_by_id := []
    atom_constants := [] }

/-- Member `type_id<T>::value`, when `type_id<T>` is specialized. -/
def type_id_v (env : Env) (T : String) : Option Nat := env.type_id.lookup T

/-- Member `type_by_id<V>::type`, when `type_by_id<V>` is specialized. -/
def type_by_id_t (env : Env) (V : Nat) : Option String := env.type_by_id.lookup V

/-- Member `type_name_by_id<V>::value`, inherited from the base `type_name<T>`. -/
def type_name_by_id_v (env : Env) (V : Nat) : Option String :=
  (env.type_name_by_id.lookup V).bind (fun T => env.type_name.lookup T)

/-- Modelled from the spec: `caf/detail/pp.hpp` is absent. `CAF_PP_STR(CAF_PP_EXPAND x)`
yields the canonical stringified spelling of the parenthesized type `x`. -/
def CAF_PP_STR (fully_qualified_name : String) : String := fully_qualified_name

/-- Modelled from the spec: `caf/atom.hpp` is absent. `caf::atom(text)` packs a literal of
at most 10 characters; a longer literal is a build-time error. The packed value is
represented by the text it stringifies to. -/
def atom (atom_text : String) : Except build_error String :=
  if atom_text.length ≤ 10 then .ok atom_text else .error .static_assertion

/-! ## The registration macros -/

/-- Lines 78-84: `CAF_BEGIN_TYPE_ID_BLOCK(project_name, first_id)`. -/
def CAF_BEGIN_TYPE_ID_BLOCK (project_name : String) (first_id : Nat) (env : Env) :
    Except build_error Env :=
  if (env.type_id_counter_init.lookup project_name).isSome
      ∨ (env.first_type_id.lookup project_name).isSome then
    .error .redefinition
  else
    .ok { env with
      COUNTER := env.COUNTER + 1
      type_id_counter_init :=
        (project_name, to_type_id_t env.COUNTER) :: env.type_id_counter_init
      first_type_id := (project_name, to_type_id_t first_id) :: env.first_type_id }

/-- Lines 114-118: the initializer of `type_id<T>::value` in `CAF_ADD_TYPE_ID`, for the
current `__COUNTER__`. -/
def type_id_value (first_type_id type_id_counter_init COUNTER : Nat) : Nat :=
  to_type_id_t ((first_type_id : Int) + ((COUNTER : Int) - type_id_counter_init - 1))

/-- Lines 111-131: `CAF_ADD_TYPE_ID(project_name, fully_qualified_name)`. -/
def CAF_ADD_TYPE_ID (project_name fully_qualified_name : String) (env : Env) :
    Except build_error Env :=
  match env.first_type_id.lookup project_name,
      env.type_id_counter_init.lookup project_name with
  | some first, some counter_init =>
    let value := type_id_value first counter_init env.COUNTER
    if (env.type_id.lookup fully_qualified_name).isSome then .error .redefinition
    else if (env.type_by_id.lookup value).isSome then .error .redefinition
    else if (env.type_name.lookup fully_qualified_name).isSome then .error .redefinition
    else if (env.type_name_by_id.lookup value).isSome then .error .redefinition
    else
      .ok { env with
        COUNTER := env.COUNTER + 1
        type_id := (fully_qualified_name, value) :: env.type_id
        type_by_id := (value, fully_qualified_name) :: env.type_by_id
        type_name := (fully_qualified_name, CAF_PP_STR fully_qualified_name) :: env.type_name
        type_name_by_id := (value, fully_qualified_name) :: env.type_name_by_id }
  | _, _ => .error .undeclared

/-- Lines 135-139: `CAF_ADD_ATOM(project_name, atom_namespace, atom_name, atom_text)`.
The expansion defines the alias and the constant only; `project_name` is not used. -/
def CAF_ADD_ATOM (_project_name atom_namespace atom_name atom_text : String) (env : Env) :
    Except build_error Env :=
  match atom atom_text with
  | .error e => .error e
  | .ok text =>
    if (env.atom_constants.lookup (atom_namespace, atom_name)).isSome then
      .error .redefinition
    else
      .ok { env with
        atom_constants := ((atom_namespace, atom_name), text) :: env.atom_constants }

/-- Lines 148-150: the initializer of `${project_name}_last_type_id`. -/
def last_type_id_value (first_type_id type_id_counter_init COUNTER : Nat) : Nat :=
  to_type_id_t ((first_type_id : Int) + ((COUNTER : Int) - type_id_counter_init - 2))

/-- Lines 145-156: `CAF_END_TYPE_ID_BLOCK(project_name)`. -/
def CAF_END_TYPE_ID_BLOCK (project_name : String) (env : Env) : Except build_error Env :=
  match env.first_type_id.lookup project_name,
      env.type_id_counter_init.lookup project_name with
  | some first, some counter_init =>
    if (env.last_type_id.lookup project_name).isSome
        ∨ (env.id_blocks.lookup project_name).isSome then
      .error .redefinition
    else
      let last := last_type_id_value first counter_init env.COUNTER
      .ok { env with
        COUNTER := env.COUNTER + 1
        last_type_id := (project_name, last) :: env.last_type_id
        id_blocks :=
          (project_name, { «begin» := first, «end» := to_type_id_t ((last : Int) + 1) })
            :: env.id_blocks }
  | _, _ => .error .undeclared

/-- One macro invocation at namespace scope. -/
inductive Decl where
  | BEGIN_TYPE_ID_BLOCK (project_name : String) (first_id : Nat)
  | ADD_TYPE_ID (project_name fully_qualified_name : String)
  | ADD_ATOM (project_name atom_namespace atom_name atom_text : String)
  | END_TYPE_ID_BLOCK (project_name : String)
  /-- any other expansion of `__COUNTER__` -/
  | COUNTER
  deriving DecidableEq, Repr

/-- Expansion of one invocation. -/
def Decl.expand : Decl → Env → Except build_error Env
  | .BEGIN_TYPE_ID_BLOCK p first_id, env => CAF_BEGIN_TYPE_ID_BLOCK p first_id env
  | .ADD_TYPE_ID p T, env => CAF_ADD_TYPE_ID p T env
  | .ADD_ATOM p ns a text, env => CAF_ADD_ATOM p ns a text env
  | .END_TYPE_ID_BLOCK p, env => CAF_END_TYPE_ID_BLOCK p env
  | .COUNTER, env => .ok { env with COUNTER := env.COUNTER + 1 }

/-- Expansion of a sequence of invocations in source order; stops at the first error. -/
def translate (env : Env) : List Decl → Except build_error Env
  | [] => .ok env
  | d :: ds =>
    match d.expand env with
    | .ok env1 => translate env1 ds
    | .error e => .error e

/-- The error with which a translation unit is rejected, if it is. -/
def rejected_with (r : Except build_error Env) : Option build_error :=
  match r with
  | .ok _ => none
  | .error e => some e

/-! ## The core module block, lines 158-263 -/

/-- Lines 162-216, in source order. -/
def core_module_types : List String :=
  [ "bool", "double", "float", "int16_t", "int32_t", "int64_t", "int8_t", "long double",
    "uint16_t", "uint32_t", "uint64_t", "uint8_t",
    "std::string", "std::u16string", "std::u32string", "std::set<std::string>",
    "caf::actor", "caf::actor_addr", "caf::atom_value", "caf::config_value",
    "caf::dictionary<caf::config_value>", "caf::down_msg", "caf::downstream_msg",
    "caf::duration", "caf::error", "caf::exit_msg", "caf::exit_reason", "caf::group",
    "caf::group_down_msg", "caf::message", "caf::message_id", "caf::node_id",
    "caf::open_stream_msg", "caf::pec", "caf::sec", "caf::strong_actor_ptr",
    "caf::timeout_msg", "caf::timespan", "caf::timestamp", "caf::unit_t",
    "caf::upstream_msg", "caf::uri", "caf::weak_actor_ptr", "std::vector<caf::actor>",
    "std::vector<caf::actor_addr>", "std::vector<caf::config_value>",
    "std::vector<caf::strong_actor_ptr>", "std::vector<caf::weak_actor_ptr>",
    "std::vector<std::pair<std::string, message>>" ]

/-- Lines 220-261, in source order: atom name and atom text. -/
def core_module_atoms : List (String × String) :=
  [ ("add_atom", "add"), ("close_atom", "close"), ("connect_atom", "connect"),
    ("contact_atom", "contact"), ("delete_atom", "delete"), ("demonitor_atom", "demonitor"),
    ("div_atom", "div"), ("flush_atom", "flush"), ("forward_atom", "forward"),
    ("get_atom", "get"), ("idle_atom", "idle"), ("join_atom", "join"),
    ("leave_atom", "leave"), ("link_atom", "link"), ("migrate_atom", "migrate"),
    ("monitor_atom", "monitor"), ("mul_atom", "mul"), ("ok_atom", "ok"),
    ("open_atom", "open"), ("pending_atom", "pending"), ("ping_atom", "ping"),
    ("pong_atom", "pong"), ("publish_atom", "publish"), ("publish_udp_atom", "pub_udp"),
    ("put_atom", "put"), ("receive_atom", "receive"), ("redirect_atom", "redirect"),
    ("reset_atom", "reset"), ("resolve_atom", "resolve"), ("spawn_atom", "spawn"),
    ("stream_atom", "stream"), ("sub_atom", "sub"), ("subscribe_atom", "subscribe"),
    ("sys_atom", "sys"), ("tick_atom", "tick"), ("timeout_atom", "timeout"),
    ("unlink_atom", "unlink"), ("unpublish_atom", "unpublish"),
    ("unpublish_udp_atom", "unpub_udp"), ("unsubscribe_atom", "unsubscrib"),
    ("update_atom", "update"), ("wait_for_atom", "wait_for") ]

/-- Lines 158-263: the block of the core module. -/
def core_module : List Decl :=
  Decl.BEGIN_TYPE_ID_BLOCK "core_module" 0
    :: (core_module_types.map (Decl.ADD_TYPE_ID "core_module")
        ++ (core_module_atoms.map (fun a => Decl.ADD_ATOM "core_module" "caf" a.1 a.2)
        ++ [Decl.END_TYPE_ID_BLOCK "core_module"]))

/-! ## The reserved range table, lines 265-280 -/

/-- Line 268. -/
def io_module_begin (core_module_end : Nat) : Nat := core_module_end

/-- Line 270. -/
def io_module_end (core_module_end : Nat) : Nat :=
  to_type_id_t ((io_module_begin core_module_end : Int) + 19)

/-- Line 272. -/
def net_module_begin (core_module_end : Nat) : Nat := io_module_end core_module_end

/-- Line 274. -/
def net_module_end (core_module_end : Nat) : Nat :=
  to_type_id_t ((net_module_begin core_module_end : Int) + 1)

/-- Lines 276-277: the condition of the static assertion. -/
def net_module_end_assertion (core_module_end : Nat) : Bool :=
  decide (net_module_end core_module_end ≤ first_custom_type_id)

/-- The whole header: the core module block followed by the range table and its static
assertion, in a translation unit whose `__COUNTER__` stands at `COUNTER`. -/
def type_id_hpp (COUNTER : Nat) : Except build_error Env :=
  match translate (Env.init COUNTER) core_module with
  | .error e => .error e
  | .ok env =>
    match env.id_blocks.lookup "core_module" with
    | none => .error .undeclared
    | some b =>
      if net_module_end_assertion b.«end» then .ok env else .error .static_assertion

/-! ## Relations between environments -/

/-- The environment `t` differs from `s` outside the specialization tables only by `n`
further expansions of `__COUNTER__`. -/
structure Keeps (s t : Env) (n : Nat) : Prop where
  COUNTER : t.COUNTER = s.COUNTER + n
  type_id_counter_init : t.type_id_counter_init = s.type_id_counter_init
  first_type_id : t.first_type_id = s.first_type_id
  last_type_id : t.last_type_id = s.last_type_id
  id_blocks : t.id_blocks = s.id_blocks
  atom_constants : t.atom_constants = s.atom_constants

/-- Relation between the specialization tables of `s` (before) and `t` (after) when the
types `ts` are registered under the consecutive identifiers `b`, `b + 1`, ... -/
structure Registers (s t : Env) (ts : List String) (b : Nat) : Prop where
  type_id_new : ∀ k T, ts[k]? = some T → t.type_id.lookup T = some (b + k)
  type_id_old : ∀ T, T ∉ ts → t.type_id.lookup T = s.type_id.lookup T
  type_by_id_new : ∀ k T, ts[k]? = some T → t.type_by_id.lookup (b + k) = some T
  type_by_id_old : ∀ V, (V < b ∨ b + ts.length ≤ V) →
    t.type_by_id.lookup V = s.type_by_id.lookup V
  type_name_new : ∀ T, T ∈ ts → t.type_name.lookup T = some (CAF_PP_STR T)
  type_name_old : ∀ T, T ∉ ts → t.type_name.lookup T = s.type_name.lookup T
  type_name_by_id_new : ∀ k T, ts[k]? = some T → t.type_name_by_id.lookup (b + k) = some T
  type_name_by_id_old : ∀ V, (V < b ∨ b + ts.length ≤ V) →
    t.type_name_by_id.lookup V = s.type_name_by_id.lookup V

/-- The block `CAF_BEGIN_TYPE_ID_BLOCK(p, first_id)`, one `CAF_ADD_TYPE_ID(p, T)` for each
`T` of `ts` in order, `CAF_END_TYPE_ID_BLOCK(p)`. -/
def type_id_block (p : String) (first_id : Nat) (ts : List String) : List Decl :=
  Decl.BEGIN_TYPE_ID_BLOCK p first_id
    :: (ts.map (Decl.ADD_TYPE_ID p) ++ [Decl.END_TYPE_ID_BLOCK p])

/-- The project name `p` is not yet used for a block in `s`. -/
def Env.fresh_block (s : Env) (p : String) : Prop :=
  s.type_id_counter_init.lookup p = none ∧ s.first_type_id.lookup p = none
    ∧ s.last_type_id.lookup p = none ∧ s.id_blocks.lookup p = none

instance (s : Env) (p : String) : Decidable (s.fresh_block p) := by
  unfold Env.fresh_block; infer_instance

/-- The types `ts` and the `ts.length` identifiers from `b` on are not yet registered
in `s`. -/
def Env.fresh_types (s : Env) (ts : List String) (b : Nat) : Prop :=
  (∀ T ∈ ts, s.type_id.lookup T = none ∧ s.type_name.lookup T = none)
    ∧ (∀ k, k < ts.length →
        s.type_by_id.lookup (b + k) = none ∧ s.type_name_by_id.lookup (b + k) = none)

instance (s : Env) (ts : List String) (b : Nat) : Decidable (s.fresh_types ts b) := by
  unfold Env.fresh_types; infer_instance

/-- Relation between `s` before and `t` after `CAF_BEGIN_TYPE_ID_BLOCK(p, f)` followed by
the registration of the types `ts`. -/
structure Opens (s t : Env) (p : String) (f : Nat) (ts : List String) : Prop where
  COUNTER : t.COUNTER = s.COUNTER + 1 + ts.length
  type_id_counter_init :
    t.type_id_counter_init = (p, to_type_id_t s.COUNTER) :: s.type_id_counter_init
  first_type_id : t.first_type_id = (p, to_type_id_t f) :: s.first_type_id
  last_type_id : t.last_type_id = s.last_type_id
  id_blocks : t.id_blocks = s.id_blocks
  atom_constants : t.atom_constants = s.atom_constants
  registers : Registers s t ts f

/-- Relation between `s` before and `u` after a whole block of project `p` that was opened
with `f` and registers the types `ts`. -/
structure Closes (s u : Env) (p : String) (f : Nat) (ts : List String) : Prop where
  COUNTER : u.COUNTER = s.COUNTER + ts.length + 2
  type_id_counter_init :
    u.type_id_counter_init = (p, to_type_id_t s.COUNTER) :: s.type_id_counter_init
  first_type_id : u.first_type_id = (p, to_type_id_t f) :: s.first_type_id
  last_type_id :
    u.last_type_id = (p, to_type_id_t ((f : Int) + ts.length - 1)) :: s.last_type_id
  id_blocks :
    u.id_blocks
      = (p, { «begin» := to_type_id_t f, «end» := to_type_id_t ((f : Int) + ts.length) })
          :: s.id_blocks
  atom_constants : u.atom_constants = s.atom_constants
  registers : Registers s u ts f


/-- The invariant of the specialization tables: every specialized `type_id<T>` with value `V`
comes with `type_by_id<V>` naming `T`, `type_name_by_id<V>` derived from `type_name<T>`, and
`type_name<T>` holding the spelling of `T`. -/
def Env.bijective (env : Env) : Prop :=
  ∀ T V, env.type_id.lookup T = some V →
    env.type_by_id.lookup V = some T ∧ env.type_name_by_id.lookup V = some T
      ∧ env.type_name.lookup T = some (CAF_PP_STR T)

/-- The environment after `type_id.hpp` in a translation unit whose `__COUNTER__` was not
used before. -/
def core_env : Env :=
  match type_id_hpp 0 with
  | .ok env => env
  | .error _ => Env.init 0

/-! ## `caf::optional`, `optional.hpp` -/

/-- Lines 36-162: `optional<T>`. `none` is the state `m_valid == false`, in which the storage
`m_value` holds no object; `some m_value` is the state `m_valid == true`. -/
inductive optional (T : Type) where
  | none : optional T
  | some (m_value : T) : optional T
  deriving DecidableEq, Repr

namespace optional

variable {T : Type}

/-- The member `m_valid`; also `explicit operator bool()`, lines 95-97. -/
def m_valid : optional T → Bool
  | .none => false
  | .some _ => true

/-- Lines 146-151: `destroy()`. -/
def destroy (self : optional T) : optional T :=
  if self.m_valid then .none else self

/-- Lines 153-158: `cr(value)`, called with `m_valid == false`. -/
def cr (_self : optional T) (value : T) : optional T := .some value

/-- Lines 43-45: `optional(const none_t& = none)`. -/
def of_none : optional T := .none

/-- Lines 48-54: `optional(U value)`. -/
def of_value (value : T) : optional T := cr .none value

/-- Lines 72-92: `operator=` (copy and move assignment act alike on the state). -/
def assign (self other : optional T) : optional T :=
  if self.m_valid then
    match other with
    | .some m_value => .some m_value
    | .none => self.destroy
  else
    match other with
    | .some m_value => self.cr m_value
    | .none => self

end optional

/-- The operations of a saving `Processor` that `serialize` uses: `sink & flag` for a
`uint8_t` and `sink & value` for a `T`. The processor itself is not part of these sources. -/
structure saving_processor (P T : Type) where
  apply_uint8_t : P → Nat → P
  apply_value : P → T → P

/-- The operations of a loading `Processor` that `serialize` uses: `source & flag` for a
`uint8_t` and `source & value` for a `T`; reading fails when the source cannot supply the
object. The processor itself is not part of these sources. -/
structure loading_processor (P T : Type) where
  apply_uint8_t : P → Option (Nat × P)
  apply_value : P → Option (T × P)

/-- Lines 238-245: `serialize` for a saving processor. Returns the sink and `x`. -/
def serialize_saving {P T : Type} (proc : saving_processor P T) (sink : P) (x : optional T) :
    P × optional T :=
  let flag : Nat := if x.m_valid then 1 else 0
  let sink1 := proc.apply_uint8_t sink flag
  if flag ≠ 0 then
    match x with
    | .some m_value => (proc.apply_value sink1 m_value, x)
    | .none => (sink1, x)
  else (sink1, x)

/-- Lines 248-259: `serialize` for a loading processor. Returns the source and `x`. -/
def serialize_loading {P T : Type} (proc : loading_processor P T) (source : P)
    (x : optional T) : Option (P × optional T) :=
  match proc.apply_uint8_t source with
  | Option.none => Option.none
  | Option.some (flag, source1) =>
    if flag ≠ 0 then
      match proc.apply_value source1 with
      | Option.none => Option.none
      | Option.some (value, source2) =>
        let x1 := x.assign (optional.of_value value)
        Option.some (source2, x1.assign optional.of_none)
    else Option.some (source1, x.assign optional.of_none)

/-- A saving processor on a byte sequence: a `uint8_t` is appended as one byte, a `T` as the
bytes `enc` gives. -/
def byte_sink {T : Type} (enc : T → List Nat) : saving_processor (List Nat) T :=
  { apply_uint8_t := fun sink flag => sink ++ [flag]
    apply_value := fun sink value => sink ++ enc value }

/-- A loading processor on a byte sequence: a `uint8_t` is the next byte, a `T` is read
by `dec`. -/
def byte_source {T : Type} (dec : List Nat → Option (T × List Nat)) :
    loading_processor (List Nat) T :=
  { apply_uint8_t := fun source =>
      match source with
      | [] => Option.none
      | b :: rest => Option.some (b, rest)
    apply_value := dec }

/-- Encoding of a `uint8_t` payload as one byte. -/
def enc_uint8_t (value : Nat) : List Nat := [value]

/-- Decoding of a `uint8_t` payload from one byte. -/
def dec_uint8_t (source : List Nat) : Option (Nat × List Nat) :=
  match source with
  | [] => Option.none
  | b :: rest => Option.some (b, rest)

/-! ## `optional`: access and comparisons -/

namespace optional

variable {T : Type}

/-- Lines 105-138: `operator*`, `operator->` and `value()`. The assertion
`CAF_ASSERT(m_valid)` is the argument `h`. -/
def value : (self : optional T) → self.m_valid = true → T
  | .some m_value, _ => m_value
  | .none, h => Bool.noConfusion h

/-- Lines 141-143: `value_or`. -/
def value_or (self : optional T) (default_value : T) : T :=
  if h : self.m_valid = true then self.value h else default_value

/-! The comparisons take the payload's `operator==` and `operator<` as `eq` and `lt`. -/

/-- Lines 264-268: `operator==(optional, optional)`. -/
def operator_eq (eq : T → T → Bool) (lhs rhs : optional T) : Bool :=
  if hv : lhs.m_valid = rhs.m_valid then
    if hl : lhs.m_valid = true then eq (lhs.value hl) (rhs.value (hv ▸ hl)) else true
  else false

/-- Lines 271-274: `operator!=(optional, optional)`. -/
def operator_ne (eq : T → T → Bool) (lhs rhs : optional T) : Bool :=
  !(operator_eq eq lhs rhs)

/-- Lines 277-280: `operator<(optional, optional)`. -/
def operator_lt (lt : T → T → Bool) (lhs rhs : optional T) : Bool :=
  if hr : rhs.m_valid = true then
    if hl : lhs.m_valid = true then lt (lhs.value hl) (rhs.value hr) else true
  else false

/-- Lines 283-286: `operator<=(optional, optional)`. -/
def operator_le (lt : T → T → Bool) (lhs rhs : optional T) : Bool :=
  !(operator_lt lt rhs lhs)

/-- Lines 289-292: `operator>=(optional, optional)`. -/
def operator_ge (lt : T → T → Bool) (lhs rhs : optional T) : Bool :=
  !(operator_lt lt lhs rhs)

/-- Lines 295-298: `operator>(optional, optional)`. -/
def operator_gt (lt : T → T → Bool) (lhs rhs : optional T) : Bool :=
  operator_lt lt rhs lhs

/-- Lines 303-306: `operator==(optional, none_t)`. -/
def operator_eq_none (lhs : optional T) : Bool := !lhs.m_valid

/-- Lines 309-312: `operator==(none_t, optional)`. -/
def none_operator_eq (rhs : optional T) : Bool := !rhs.m_valid

/-- Lines 315-318: `operator!=(optional, none_t)`. -/
def operator_ne_none (lhs : optional T) : Bool := lhs.m_valid

/-- Lines 321-324: `operator!=(none_t, optional)`. -/
def none_operator_ne (rhs : optional T) : Bool := rhs.m_valid

/-- Lines 327-330: `operator<(optional, none_t)`. -/
def operator_lt_none (_lhs : optional T) : Bool := false

/-- Lines 333-336: `operator<(none_t, optional)`. -/
def none_operator_lt (rhs : optional T) : Bool := rhs.m_valid

/-- Lines 339-342: `operator<=(optional, none_t)`. -/
def operator_le_none (lhs : optional T) : Bool := !lhs.m_valid

/-- Lines 345-348: `operator<=(none_t, optional)`. -/
def none_operator_le (_rhs : optional T) : Bool := true

/-- Lines 351-354: `operator>(optional, none_t)`. -/
def operator_gt_none (lhs : optional T) : Bool := lhs.m_valid

/-- Lines 357-360: `operator>(none_t, optional)`. -/
def none_operator_gt (_rhs : optional T) : Bool := false

/-- Lines 363-366: `operator>=(optional, none_t)`. -/
def operator_ge_none (_lhs : optional T) : Bool := true

/-- Lines 369-372: `operator>=(none_t, optional)`. -/
def none_operator_ge (_rhs : optional T) : Bool := true

/-- Lines 377-380: `operator==(optional, T)`. -/
def operator_eq_value (eq : T → T → Bool) (lhs : optional T) (rhs : T) : Bool :=
  if h : lhs.m_valid = true then eq (lhs.value h) rhs else false

/-- Lines 383-386: `operator==(T, optional)`. -/
def value_operator_eq (eq : T → T → Bool) (lhs : T) (rhs : optional T) : Bool :=
  if h : rhs.m_valid = true then eq lhs (rhs.value h) else false

/-- Lines 389-392: `operator!=(optional, T)`. -/
def operator_ne_value (eq : T → T → Bool) (lhs : optional T) (rhs : T) : Bool :=
  if h : lhs.m_valid = true then !(eq (lhs.value h) rhs) else true

/-- Lines 395-398: `operator!=(T, optional)`. -/
def value_operator_ne (eq : T → T → Bool) (lhs : T) (rhs : optional T) : Bool :=
  if h : rhs.m_valid = true then !(eq lhs (rhs.value h)) else true

/-- Lines 401-404: `operator<(optional, T)`. -/
def operator_lt_value (lt : T → T → Bool) (lhs : optional T) (rhs : T) : Bool :=
  if h : lhs.m_valid = true then lt (lhs.value h) rhs else true

/-- Lines 407-410: `operator<(T, optional)`. -/
def value_operator_lt (lt : T → T → Bool) (lhs : T) (rhs : optional T) : Bool :=
  if h : rhs.m_valid = true then lt lhs (rhs.value h) else false

/-- Lines 413-416: `operator<=(optional, T)`. -/
def operator_le_value (lt : T → T → Bool) (lhs : optional T) (rhs : T) : Bool :=
  if h : lhs.m_valid = true then !(lt rhs (lhs.value h)) else true

/-- Lines 419-422: `operator<=(T, optional)`; its `rhs < lhs` is `operator<(optional, T)`. -/
def value_operator_le (lt : T → T → Bool) (lhs : T) (rhs : optional T) : Bool :=
  if rhs.m_valid = true then !(operator_lt_value lt rhs lhs) else false

/-- Lines 425-428: `operator>(optional, T)`. -/
def operator_gt_value (lt : T → T → Bool) (lhs : optional T) (rhs : T) : Bool :=
  if h : lhs.m_valid = true then lt rhs (lhs.value h) else false

/-- Lines 431-434: `operator>(T, optional)`. -/
def value_operator_gt (lt : T → T → Bool) (lhs : T) (rhs : optional T) : Bool :=
  if h : rhs.m_valid = true then lt (rhs.value h) lhs else true

/-- Lines 437-440: `operator>=(optional, T)`. -/
def operator_ge_value (lt : T → T → Bool) (lhs : optional T) (rhs : T) : Bool :=
  if h : lhs.m_valid = true then !(lt (lhs.value h) rhs) else false

/-- Lines 443-446: `operator>=(T, optional)`. -/
def value_operator_ge (lt : T → T → Bool) (lhs : T) (rhs : optional T) : Bool :=
  if h : rhs.m_valid = true then !(lt lhs (rhs.value h)) else true

/-- Lines 56-60: the copy constructor `optional(const optional& other)`. -/
def of_optional (other : optional T) : optional T :=
  if h : other.m_valid = true then cr .none (other.value h) else .none

/-- Lines 72-81: `operator=(const optional& other)` with both operands: the new state of
`*this` and `other`, which is a reference to const and is not assigned. -/
def copy_assign (self other : optional T) : optional T × optional T :=
  (self.assign other, other)

end optional

/-- Lines 166-229: `optional<T&>`. The pointer `m_value` is null (`none`) or points to an
object, which stands here for the reference to it. -/
structure optional_ref (T : Type) where
  m_value : Option T

namespace optional_ref

variable {T : Type}

/-- Lines 171-173: `optional(const none_t& = none)`. -/
def of_none : optional_ref T := { m_value := none }

/-- Lines 175-177: `optional(T& value)`. -/
def of_value (value : T) : optional_ref T := { m_value := some value }

/-- Lines 183-185: `explicit operator bool()`. -/
def to_bool (self : optional_ref T) : Bool := self.m_value.isSome

/-- Lines 191-219: `operator*`, `operator->` and `value()`. The assertion
`CAF_ASSERT(m_value)` is the argument `h`. -/
def value (self : optional_ref T) (h : self.m_value.isSome = true) : T :=
  self.m_value.get h

/-- Lines 221-225: `value_or`. -/
def value_or (self : optional_ref T) (default_value : T) : T :=
  if h : self.m_value.isSome = true then self.value h else default_value

end optional_ref

/-! ## Comparing two translations -/

/-- The environment without the value of `__COUNTER__` and the stored counter baselines:
all identifiers, names, block constants and published blocks. -/
def Env.forget_counter (e : Env) : Env :=
  { e with COUNTER := 0, type_id_counter_init := [] }

/-- The environments `a` and `b` agree except for `__COUNTER__` and the stored baselines,
and in both the block `p` is open with the same distance, modulo `2^16`, between
`__COUNTER__` and the baseline of `p`. -/
def Env.same_ids (p : String) (a b : Env) : Prop :=
  a.first_type_id = b.first_type_id ∧ a.last_type_id = b.last_type_id
    ∧ a.id_blocks = b.id_blocks ∧ a.type_id = b.type_id ∧ a.type_by_id = b.type_by_id
    ∧ a.type_name = b.type_name ∧ a.type_name_by_id = b.type_name_by_id
    ∧ a.atom_constants = b.atom_constants
    ∧ ∃ i1 i2, a.type_id_counter_init.lookup p = some i1
        ∧ b.type_id_counter_init.lookup p = some i2
        ∧ (((a.COUNTER : Int) - i1) - ((b.COUNTER : Int) - i2)) % 65536 = 0

/-- Two outcomes are both rejections with the same error, or both environments related
by `Env.same_ids`. -/
def same_outcome (p : String) (ra rb : Except build_error Env) : Prop :=
  match ra, rb with
  | .ok a, .ok b => Env.same_ids p a b
  | .error e1, .error e2 => e1 = e2
  | _, _ => False

/-! ## Lemmas on the environment -/

theorem lookup_cons_self {α β : Type} [BEq α] [LawfulBEq α] (k : α) (v : β)
    (l : List (α × β)) : ((k, v) :: l).lookup k = some v := by
  simp [List.lookup_cons]

theorem lookup_cons_ne {α β : Type} [BEq α] [LawfulBEq α] (a k : α) (v : β)
    (l : List (α × β)) (h : a ≠ k) : ((k, v) :: l).lookup a = l.lookup a := by
  have hb : (a == k) = false := by simpa using h
  simp [List.lookup_cons, hb]

theorem to_type_id_t_of_lt (n : Nat) (h : n < 65536) : to_type_id_t n = n := by
  unfold to_type_id_t
  omega

theorem type_id_value_eq (first counter_init COUNTER b : Nat) (hb : b < 65536)
    (h : ((first : Int) + ((COUNTER : Int) - counter_init - 1) - b) % 65536 = 0) :
    type_id_value first counter_init COUNTER = b := by
  unfold type_id_value to_type_id_t
  omega

/-- A run of `CAF_ADD_TYPE_ID` invocations on fresh types and fresh identifiers succeeds
and registers consecutive identifiers. -/
theorem translate_ADD_TYPE_ID (p : String) (first counter_init : Nat) :
    ∀ (ts : List String) (s : Env) (b : Nat),
      s.first_type_id.lookup p = some first →
      s.type_id_counter_init.lookup p = some counter_init →
      ((first : Int) + ((s.COUNTER : Int) - counter_init - 1) - b) % 65536 = 0 →
      b + ts.length ≤ 65536 →
      ts.Nodup →
      (∀ T ∈ ts, s.type_id.lookup T = none ∧ s.type_name.lookup T = none) →
      (∀ k, k < ts.length →
        s.type_by_id.lookup (b + k) = none ∧ s.type_name_by_id.lookup (b + k) = none) →
      ∃ t, translate s (ts.map (Decl.ADD_TYPE_ID p)) = .ok t ∧ Keeps s t ts.length
        ∧ Registers s t ts b := by
  intro ts
  induction ts with
  | nil =>
    intro s b _ _ _ _ _ _ _
    refine ⟨s, rfl, ?_, ?_⟩
    · constructor <;> simp
    · constructor <;> simp
  | cons T ts ih =>
    intro s b hf hc hcong hlen hnd hT hV
    have hb : b < 65536 := by simp at hlen; omega
    have hval : type_id_value first counter_init s.COUNTER = b :=
      type_id_value_eq first counter_init s.COUNTER b hb hcong
    obtain ⟨hTnot, hnd1⟩ := List.nodup_cons.mp hnd
    obtain ⟨hT1, hT2⟩ := hT T (List.mem_cons_self T ts)
    obtain ⟨hV1, hV2⟩ := hV 0 (by simp)
    simp only [Nat.add_zero] at hV1 hV2
    -- the environment after the first invocation
    let s1 : Env := { s with
        COUNTER := s.COUNTER + 1
        type_id := (T, b) :: s.type_id
        type_by_id := (b, T) :: s.type_by_id
        type_name := (T, CAF_PP_STR T) :: s.type_name
        type_name_by_id := (b, T) :: s.type_name_by_id }
    have hstep : CAF_ADD_TYPE_ID p T s = .ok s1 := by
      simp only [CAF_ADD_TYPE_ID, hf, hc, hval, hT1, hT2, hV1, hV2]
      rfl
    have hne : ∀ T1 ∈ ts, T1 ≠ T := fun T1 h1 e => hTnot (e ▸ h1)
    obtain ⟨t, ht, K, R⟩ := ih s1 (b + 1) hf hc
      (by show ((first : Int) + (((s.COUNTER + 1 : Nat) : Int) - counter_init - 1)
            - ((b + 1 : Nat) : Int)) % 65536 = 0
          push_cast; rw [← hcong]; congr 1; ring)
      (by simp at hlen; omega) hnd1
      (by
        intro T1 h1
        obtain ⟨a1, a2⟩ := hT T1 (List.mem_cons_of_mem T h1)
        exact ⟨by show ((T, b) :: s.type_id).lookup T1 = none
                  rw [lookup_cons_ne _ _ _ _ (hne T1 h1)]; exact a1,
               by show ((T, CAF_PP_STR T) :: s.type_name).lookup T1 = none
                  rw [lookup_cons_ne _ _ _ _ (hne T1 h1)]; exact a2⟩)
      (by
        intro k hk
        obtain ⟨a1, a2⟩ := hV (k + 1) (by simp; omega)
        have e : b + 1 + k = b + (k + 1) := by omega
        have n : b + 1 + k ≠ b := by omega
        exact ⟨by show ((b, T) :: s.type_by_id).lookup (b + 1 + k) = none
                  rw [lookup_cons_ne _ _ _ _ n, e]; exact a1,
               by show ((b, T) :: s.type_name_by_id).lookup (b + 1 + k) = none
                  rw [lookup_cons_ne _ _ _ _ n, e]; exact a2⟩)
    refine ⟨t, ?_, ?_, ?_⟩
    · simp only [List.map_cons, translate, Decl.expand, hstep]
      exact ht
    · constructor
      · rw [K.COUNTER]; simp [s1]; omega
      · rw [K.type_id_counter_init]
      · rw [K.first_type_id]
      · rw [K.last_type_id]
      · rw [K.id_blocks]
      · rw [K.atom_constants]
    · constructor
      · intro k T1 hk
        cases k with
        | zero =>
          simp at hk
          subst hk
          rw [R.type_id_old _ hTnot]
          exact lookup_cons_self _ _ _
        | succ k =>
          simp at hk
          rw [R.type_id_new k T1 hk]
          congr 1; omega
      · intro T1 h1
        simp at h1
        rw [R.type_id_old _ h1.2]
        exact lookup_cons_ne _ _ _ _ h1.1
      · intro k T1 hk
        cases k with
        | zero =>
          simp at hk
          subst hk
          rw [R.type_by_id_old _ (Or.inl (by omega))]
          exact lookup_cons_self _ _ _
        | succ k =>
          simp at hk
          have e : b + (k + 1) = b + 1 + k := by omega
          rw [e]
          exact R.type_by_id_new k T1 hk
      · intro V hV0
        simp at hV0
        rw [R.type_by_id_old _ (by omega)]
        exact lookup_cons_ne _ _ _ _ (by omega)
      · intro T1 h1
        simp at h1
        rcases h1 with h1 | h1
        · subst h1
          rw [R.type_name_old _ hTnot]
          exact lookup_cons_self _ _ _
        · exact R.type_name_new T1 h1
      · intro T1 h1
        simp at h1
        rw [R.type_name_old _ h1.2]
        exact lookup_cons_ne _ _ _ _ h1.1
      · intro k T1 hk
        cases k with
        | zero =>
          simp at hk
          subst hk
          rw [R.type_name_by_id_old _ (Or.inl (by omega))]
          exact lookup_cons_self _ _ _
        | succ k =>
          simp at hk
          have e : b + (k + 1) = b + 1 + k := by omega
          rw [e]
          exact R.type_name_by_id_new k T1 hk
      · intro V hV0
        simp at hV0
        rw [R.type_name_by_id_old _ (by omega)]
        exact lookup_cons_ne _ _ _ _ (by omega)

theorem translate_append (a b : List Decl) :
    ∀ (s t : Env), translate s a = .ok t → translate s (a ++ b) = translate t b := by
  induction a with
  | nil =>
    intro s t h
    simp only [translate, Except.ok.injEq] at h
    subst h
    rfl
  | cons d ds ih =>
    intro s t h
    simp only [translate, List.cons_append] at h ⊢
    cases hd : d.expand s with
    | error e => rw [hd] at h; cases h
    | ok s1 =>
      rw [hd] at h
      exact ih s1 t h

theorem translate_cons_ok (d : Decl) (ds : List Decl) (s s1 : Env)
    (h : d.expand s = .ok s1) : translate s (d :: ds) = translate s1 ds := by
  simp only [translate, h]

theorem CAF_BEGIN_TYPE_ID_BLOCK_ok (p : String) (f : Nat) (s : Env)
    (h1 : s.type_id_counter_init.lookup p = none) (h2 : s.first_type_id.lookup p = none) :
    CAF_BEGIN_TYPE_ID_BLOCK p f s = .ok { s with
      COUNTER := s.COUNTER + 1
      type_id_counter_init := (p, to_type_id_t s.COUNTER) :: s.type_id_counter_init
      first_type_id := (p, to_type_id_t f) :: s.first_type_id } := by
  simp [CAF_BEGIN_TYPE_ID_BLOCK, h1, h2]

theorem CAF_END_TYPE_ID_BLOCK_ok (p : String) (first counter_init last e : Nat) (t : Env)
    (h1 : t.first_type_id.lookup p = some first)
    (h2 : t.type_id_counter_init.lookup p = some counter_init)
    (h3 : t.last_type_id.lookup p = none) (h4 : t.id_blocks.lookup p = none)
    (hlast : last_type_id_value first counter_init t.COUNTER = last)
    (hend : to_type_id_t ((last : Int) + 1) = e) :
    CAF_END_TYPE_ID_BLOCK p t = .ok { t with
      COUNTER := t.COUNTER + 1
      last_type_id := (p, last) :: t.last_type_id
      id_blocks := (p, { «begin» := first, «end» := e }) :: t.id_blocks } := by
  subst hlast hend
  simp [CAF_END_TYPE_ID_BLOCK, h1, h2, h3, h4]

/-- Opening a block on a fresh project name and registering fresh types under fresh
identifiers is accepted, whatever follows. -/
theorem translate_begin_adds (s : Env) (p : String) (f : Nat) (ts : List String)
    (h1 : s.type_id_counter_init.lookup p = none) (h2 : s.first_type_id.lookup p = none)
    (hlen : f + ts.length ≤ 65536) (hnd : ts.Nodup) (hfresh : s.fresh_types ts f) :
    ∃ t, (∀ rest, translate s
            (Decl.BEGIN_TYPE_ID_BLOCK p f :: (ts.map (Decl.ADD_TYPE_ID p) ++ rest))
          = translate t rest) ∧ Opens s t p f ts := by
  have hb := CAF_BEGIN_TYPE_ID_BLOCK_ok p f s h1 h2
  obtain ⟨t, ht, K, R⟩ := translate_ADD_TYPE_ID p (to_type_id_t f) (to_type_id_t s.COUNTER) ts
    { s with
      COUNTER := s.COUNTER + 1
      type_id_counter_init := (p, to_type_id_t s.COUNTER) :: s.type_id_counter_init
      first_type_id := (p, to_type_id_t f) :: s.first_type_id } f
    (lookup_cons_self _ _ _) (lookup_cons_self _ _ _)
    (by show (((to_type_id_t f : Nat) : Int)
            + (((s.COUNTER + 1 : Nat) : Int) - (to_type_id_t s.COUNTER : Nat) - 1) - f) % 65536 = 0
        unfold to_type_id_t; omega)
    hlen hnd hfresh.1 hfresh.2
  refine ⟨t, ?_, ?_⟩
  · intro rest
    simp only [translate, Decl.expand, hb]
    rw [translate_append _ _ _ t ht]
  · exact ⟨K.COUNTER, K.type_id_counter_init, K.first_type_id, K.last_type_id, K.id_blocks,
      K.atom_constants,
      ⟨R.type_id_new, R.type_id_old, R.type_by_id_new, R.type_by_id_old,
        R.type_name_new, R.type_name_old, R.type_name_by_id_new, R.type_name_by_id_old⟩⟩

/-- A whole block on a fresh project name, fresh types and fresh identifiers is accepted. -/
theorem translate_type_id_block (s : Env) (p : String) (f : Nat) (ts : List String)
    (hp : s.fresh_block p) (hlen : f + ts.length ≤ 65536) (hnd : ts.Nodup)
    (hfresh : s.fresh_types ts f) :
    ∃ u, translate s (type_id_block p f ts) = .ok u ∧ Closes s u p f ts := by
  obtain ⟨h1, h2, h3, h4⟩ := hp
  obtain ⟨t, ht, O⟩ := translate_begin_adds s p f ts h1 h2 hlen hnd hfresh
  have he := CAF_END_TYPE_ID_BLOCK_ok p (to_type_id_t f) (to_type_id_t s.COUNTER)
    (to_type_id_t ((f : Int) + ts.length - 1)) (to_type_id_t ((f : Int) + ts.length)) t
    (by rw [O.first_type_id]; exact lookup_cons_self _ _ _)
    (by rw [O.type_id_counter_init]; exact lookup_cons_self _ _ _)
    (by rw [O.last_type_id]; exact h3) (by rw [O.id_blocks]; exact h4)
    (by rw [O.COUNTER]; unfold last_type_id_value to_type_id_t; omega)
    (by unfold to_type_id_t; omega)
  have htr := (ht [Decl.END_TYPE_ID_BLOCK p]).trans
    (translate_cons_ok (Decl.END_TYPE_ID_BLOCK p) [] t _ he)
  have R := O.registers
  refine ⟨_, htr, ?_⟩
  constructor
  · show t.COUNTER + 1 = _
    rw [O.COUNTER]; omega
  · exact O.type_id_counter_init
  · exact O.first_type_id
  · show _ :: t.last_type_id = _
    rw [O.last_type_id]
  · show _ :: t.id_blocks = _
    rw [O.id_blocks]
  · exact O.atom_constants
  · exact ⟨R.type_id_new, R.type_id_old, R.type_by_id_new, R.type_by_id_old,
      R.type_name_new, R.type_name_old, R.type_name_by_id_new, R.type_name_by_id_old⟩

theorem CAF_ADD_ATOM_ok (p ns a text : String) (s : Env) (hlen : text.length ≤ 10)
    (hfresh : s.atom_constants.lookup (ns, a) = none) :
    CAF_ADD_ATOM p ns a text s
      = .ok { s with atom_constants := ((ns, a), text) :: s.atom_constants } := by
  simp [CAF_ADD_ATOM, atom, hlen, hfresh]

/-- A run of `CAF_ADD_ATOM` invocations touches nothing but the atom constants. -/
theorem translate_ADD_ATOM (p ns : String) :
    ∀ (atoms : List (String × String)) (s : Env),
      (atoms.map Prod.fst).Nodup →
      (∀ a ∈ atoms, a.2.length ≤ 10) →
      (∀ a ∈ atoms, s.atom_constants.lookup (ns, a.1) = none) →
      translate s (atoms.map (fun a => Decl.ADD_ATOM p ns a.1 a.2))
        = .ok { s with
            atom_constants :=
              (atoms.map (fun a => ((ns, a.1), a.2))).reverse ++ s.atom_constants } := by
  intro atoms
  induction atoms with
  | nil => intro s _ _ _; rfl
  | cons a atoms ih =>
    intro s hnd hlen hfresh
    simp only [List.map_cons, List.nodup_cons] at hnd
    have hstep := CAF_ADD_ATOM_ok p ns a.1 a.2 s (hlen a (List.mem_cons_self a atoms))
      (hfresh a (List.mem_cons_self a atoms))
    simp only [List.map_cons, translate, Decl.expand, hstep]
    rw [ih _ hnd.2 (fun b hb => hlen b (List.mem_cons_of_mem a hb))]
    · simp
    · intro b hb
      have hne : b.1 ≠ a.1 := fun e => hnd.1 (e ▸ List.mem_map_of_mem Prod.fst hb)
      have hkey : ((ns, b.1) == (ns, a.1)) = false := by
        simp [hne]
      show (((ns, a.1), a.2) :: s.atom_constants).lookup (ns, b.1) = none
      simp only [List.lookup_cons, hkey]
      exact hfresh b (List.mem_cons_of_mem a hb)

/-- The environment after the header, at every value of `__COUNTER__`. -/
theorem type_id_hpp_env (c0 : Nat) :
    ∃ env, type_id_hpp c0 = .ok env
      ∧ translate (Env.init c0) core_module = .ok env
      ∧ env.COUNTER = c0 + 51
      ∧ env.id_blocks = [("core_module", { «begin» := 0, «end» := 49 })]
      ∧ env.last_type_id = [("core_module", 48)]
      ∧ Registers (Env.init c0) env core_module_types 0
      ∧ env.type_id_counter_init = [("core_module", to_type_id_t c0)]
      ∧ env.first_type_id = [("core_module", 0)] := by
  obtain ⟨t, ht, O⟩ := translate_begin_adds (Env.init c0) "core_module" 0 core_module_types
    rfl rfl (by decide) (by decide)
    (by show (∀ T ∈ core_module_types, ([] : List (String × Nat)).lookup T = none
            ∧ [("void", "void")].lookup T = none) ∧ _
        exact ⟨by decide, fun k _ => ⟨rfl, rfl⟩⟩)
  have ha := translate_ADD_ATOM "core_module" "caf" core_module_atoms t (by decide) (by decide)
    (by intro a _; rw [O.atom_constants]; rfl)
  have hlenT : core_module_types.length = 49 := by decide
  have hC : t.COUNTER = c0 + 50 := by rw [O.COUNTER, hlenT]; rfl
  have he := CAF_END_TYPE_ID_BLOCK_ok "core_module" 0 (to_type_id_t c0) 48 49
    { t with
      atom_constants :=
        (core_module_atoms.map (fun a => (("caf", a.1), a.2))).reverse ++ t.atom_constants }
    (by show t.first_type_id.lookup "core_module" = _
        rw [O.first_type_id]; exact lookup_cons_self _ _ _)
    (by show t.type_id_counter_init.lookup "core_module" = _
        rw [O.type_id_counter_init]; exact lookup_cons_self _ _ _)
    (by show t.last_type_id.lookup "core_module" = _
        rw [O.last_type_id]; rfl)
    (by show t.id_blocks.lookup "core_module" = _
        rw [O.id_blocks]; rfl)
    (by show last_type_id_value 0 (to_type_id_t c0) t.COUNTER = 48
        rw [hC]; unfold last_type_id_value to_type_id_t; omega)
    (by decide)
  have htr := (ht _).trans
    ((translate_append _ [Decl.END_TYPE_ID_BLOCK "core_module"] _ _ ha).trans
      (translate_cons_ok (Decl.END_TYPE_ID_BLOCK "core_module") [] _ _ he))
  have R := O.registers
  refine ⟨_, ?_, htr, ?_, ?_, ?_, ?_, ?_, ?_⟩
  · unfold type_id_hpp
    have htr2 : translate (Env.init c0) core_module = _ := htr
    rw [htr2]
    simp only [translate, lookup_cons_self]
    rfl
  · show t.COUNTER + 1 = _
    rw [hC]
  · show _ :: t.id_blocks = _
    rw [O.id_blocks]; rfl
  · show _ :: t.last_type_id = _
    rw [O.last_type_id]; rfl
  · exact ⟨R.type_id_new, R.type_id_old, R.type_by_id_new, R.type_by_id_old,
      R.type_name_new, R.type_name_old, R.type_name_by_id_new, R.type_name_by_id_old⟩
  · show t.type_id_counter_init = _
    rw [O.type_id_counter_init]; rfl
  · show t.first_type_id = _
    rw [O.first_type_id]; rfl

/-- The header is accepted at every value of `__COUNTER__`; the core block is `[0, 49)`. -/
theorem type_id_hpp_ok (c0 : Nat) :
    ∃ env, type_id_hpp c0 = .ok env
      ∧ translate (Env.init c0) core_module = .ok env
      ∧ env.COUNTER = c0 + 51
      ∧ env.id_blocks = [("core_module", { «begin» := 0, «end» := 49 })]
      ∧ env.last_type_id = [("core_module", 48)]
      ∧ Registers (Env.init c0) env core_module_types 0 := by
  obtain ⟨env, h1, h2, h3, h4, h5, h6, _⟩ := type_id_hpp_env c0
  exact ⟨env, h1, h2, h3, h4, h5, h6⟩

/-- What an accepted `CAF_ADD_TYPE_ID` found and did. -/
theorem CAF_ADD_TYPE_ID_accepted (p T : String) (s t : Env)
    (h : CAF_ADD_TYPE_ID p T s = .ok t) :
    ∃ V, s.type_id.lookup T = none ∧ s.type_by_id.lookup V = none
      ∧ s.type_name.lookup T = none ∧ s.type_name_by_id.lookup V = none
      ∧ t.type_id = (T, V) :: s.type_id ∧ t.type_by_id = (V, T) :: s.type_by_id
      ∧ t.type_name = (T, CAF_PP_STR T) :: s.type_name
      ∧ t.type_name_by_id = (V, T) :: s.type_name_by_id := by
  unfold CAF_ADD_TYPE_ID at h
  split at h
  · rename_i first counter_init _ _
    refine ⟨type_id_value first counter_init s.COUNTER, ?_⟩
    simp only at h
    split_ifs at h with c1 c2 c3 c4
    simp only [Except.ok.injEq] at h
    subst h
    simp only [Option.not_isSome_iff_eq_none] at c1 c2 c3 c4
    exact ⟨c1, c2, c3, c4, rfl, rfl, rfl, rfl⟩
  · cases h

theorem bijective_CAF_ADD_TYPE_ID (p T : String) (s t : Env) (hs : s.bijective)
    (h : CAF_ADD_TYPE_ID p T s = .ok t) : t.bijective := by
  obtain ⟨V, a1, a2, a3, a4, e1, e2, e3, e4⟩ := CAF_ADD_TYPE_ID_accepted p T s t h
  intro T1 V1 h1
  rw [e1] at h1
  rw [e2, e3, e4]
  by_cases hT : T1 = T
  · subst hT
    rw [lookup_cons_self] at h1
    simp only [Option.some.injEq] at h1
    subst h1
    exact ⟨lookup_cons_self _ _ _, lookup_cons_self _ _ _, lookup_cons_self _ _ _⟩
  · rw [lookup_cons_ne _ _ _ _ hT] at h1
    obtain ⟨b1, b2, b3⟩ := hs T1 V1 h1
    have hV : V1 ≠ V := by
      intro e
      rw [e, a2] at b1
      cases b1
    exact ⟨by rw [lookup_cons_ne _ _ _ _ hV]; exact b1,
      by rw [lookup_cons_ne _ _ _ _ hV]; exact b2,
      by rw [lookup_cons_ne _ _ _ _ hT]; exact b3⟩

/-- An invocation other than `CAF_ADD_TYPE_ID` leaves the specialization tables alone. -/
theorem expand_tables (d : Decl) (s t : Env) (h : d.expand s = .ok t)
    (hd : ∀ p T, d ≠ Decl.ADD_TYPE_ID p T) :
    t.type_id = s.type_id ∧ t.type_by_id = s.type_by_id ∧ t.type_name = s.type_name
      ∧ t.type_name_by_id = s.type_name_by_id := by
  cases d with
  | BEGIN_TYPE_ID_BLOCK p f =>
    simp only [Decl.expand, CAF_BEGIN_TYPE_ID_BLOCK] at h
    split_ifs at h
    simp only [Except.ok.injEq] at h
    subst h
    exact ⟨rfl, rfl, rfl, rfl⟩
  | ADD_TYPE_ID p T => exact absurd rfl (hd p T)
  | ADD_ATOM p ns a text =>
    simp only [Decl.expand, CAF_ADD_ATOM] at h
    split at h
    · cases h
    · split_ifs at h
      simp only [Except.ok.injEq] at h
      subst h
      exact ⟨rfl, rfl, rfl, rfl⟩
  | END_TYPE_ID_BLOCK p =>
    simp only [Decl.expand, CAF_END_TYPE_ID_BLOCK] at h
    split at h
    · split_ifs at h
      simp only [Except.ok.injEq] at h
      subst h
      exact ⟨rfl, rfl, rfl, rfl⟩
    · cases h
  | COUNTER =>
    simp only [Decl.expand, Except.ok.injEq] at h
    subst h
    exact ⟨rfl, rfl, rfl, rfl⟩

theorem bijective_expand (d : Decl) (s t : Env) (hs : s.bijective)
    (h : d.expand s = .ok t) : t.bijective := by
  by_cases hd : ∃ p T, d = Decl.ADD_TYPE_ID p T
  · obtain ⟨p, T, rfl⟩ := hd
    exact bijective_CAF_ADD_TYPE_ID p T s t hs h
  · obtain ⟨e1, e2, e3, e4⟩ := expand_tables d s t h
      (fun p T e => hd ⟨p, T, e⟩)
    intro T V hTV
    rw [e1] at hTV
    rw [e2, e3, e4]
    exact hs T V hTV

/-- The invariant holds after every accepted sequence of invocations. -/
theorem bijective_translate (ds : List Decl) :
    ∀ (s t : Env), s.bijective → translate s ds = .ok t → t.bijective := by
  induction ds with
  | nil =>
    intro s t hs h
    simp only [translate, Except.ok.injEq] at h
    subst h
    exact hs
  | cons d ds ih =>
    intro s t hs h
    simp only [translate] at h
    cases hd : d.expand s with
    | error e => rw [hd] at h; cases h
    | ok s1 =>
      rw [hd] at h
      exact ih s1 t (bijective_expand d s s1 hs hd) h

theorem bijective_init (c0 : Nat) : (Env.init c0).bijective := by
  intro T V h
  cases h

theorem getElem?_lt {α : Type} (l : List α) (k : Nat) (a : α) (h : l[k]? = some a) :
    k < l.length := by
  obtain ⟨hk, _⟩ := List.getElem?_eq_some.mp h
  exact hk

/-! ## Evaluations on the environment after the header -/

theorem core_env_ok : translate (Env.init 0) core_module = .ok core_env := rfl

theorem core_env_fresh_block_demo : core_env.fresh_block "demo" := by decide

theorem core_env_fresh_types_demo :
    core_env.fresh_types ["demo::a", "demo::b", "demo::c"] 200 := by decide

theorem core_env_fresh_block_demo2 : core_env.fresh_block "demo2" := by decide

theorem core_env_fresh_types_demo2 :
    core_env.fresh_types (["demo::a", "demo::b", "demo::c"] ++ ["demo2::x", "demo2::y"]) 200 := by
  decide

/-! ## C1: identifiers of a block are consecutive -/

/-- C1, as stated, fails where the run leaves the 16-bit range. After the header, a block
opened with `firstId = 65535` gives its first type 65535; for the second type the macro
computes 0 instead of 65536, which `bool` already holds, so the block is rejected; on
empty tables the second type is assigned 0. -/
theorem C1_counterexample :
    (translate core_env [Decl.BEGIN_TYPE_ID_BLOCK "demo" 65535,
        Decl.ADD_TYPE_ID "demo" "demo::a"]).toOption.bind (fun t => type_id_v t "demo::a")
      = some 65535
    ∧ type_id_value 65535 (to_type_id_t core_env.COUNTER) (core_env.COUNTER + 2) = 0
    ∧ type_by_id_t core_env 0 = some "bool"
    ∧ rejected_with (translate core_env [Decl.BEGIN_TYPE_ID_BLOCK "demo" 65535,
        Decl.ADD_TYPE_ID "demo" "demo::a", Decl.ADD_TYPE_ID "demo" "demo::b"])
      = some build_error.redefinition
    ∧ (translate (Env.init 0) [Decl.BEGIN_TYPE_ID_BLOCK "demo" 65535,
        Decl.ADD_TYPE_ID "demo" "demo::a",
        Decl.ADD_TYPE_ID "demo" "demo::b"]).toOption.bind (fun t => type_id_v t "demo::b")
      = some 0 := by
  refine ⟨?_, ?_, ?_, ?_, ?_⟩ <;> decide

/-- C1 (amended): a block opened with `firstId` on a fresh project name, followed by `N`
registrations of pairwise distinct, unregistered types whose identifiers
`firstId .. firstId + N - 1` are unregistered and fit in 16 bits (`firstId + N ≤ 65536`),
is accepted at every value of `__COUNTER__`, and the type at position `k` (from 0) is
assigned `firstId + k`: the identifiers are the run `firstId, ..., firstId + N - 1` in
declaration order. -/
theorem C1_block_identifiers (s : Env) (p : String) (firstId : Nat) (ts : List String)
    (h1 : s.type_id_counter_init.lookup p = none) (h2 : s.first_type_id.lookup p = none)
    (hlen : firstId + ts.length ≤ 65536) (hnd : ts.Nodup)
    (hfresh : s.fresh_types ts firstId) :
    ∃ t, translate s (Decl.BEGIN_TYPE_ID_BLOCK p firstId :: ts.map (Decl.ADD_TYPE_ID p))
          = .ok t
      ∧ (∀ k T, ts[k]? = some T → type_id_v t T = some (firstId + k))
      ∧ ts.map (type_id_v t) = (List.range ts.length).map (fun k => some (firstId + k)) := by
  obtain ⟨t, ht, O⟩ := translate_begin_adds s p firstId ts h1 h2 hlen hnd hfresh
  have htr := ht []
  rw [List.append_nil] at htr
  refine ⟨t, htr, O.registers.type_id_new, ?_⟩
  apply List.ext_getElem?
  intro k
  rw [List.getElem?_map, List.getElem?_map]
  by_cases hk : k < ts.length
  · rw [List.getElem?_range hk, List.getElem?_eq_getElem hk]
    simp only [Option.map_some']
    exact congrArg some (O.registers.type_id_new k _ (List.getElem?_eq_getElem hk))
  · rw [List.getElem?_eq_none (by omega), List.getElem?_eq_none (by simp; omega)]
    rfl

/-- Witness for C1: after the header, a block `demo` opened with 200 on three new types. -/
theorem C1_block_identifiers_witness :
    (core_env.type_id_counter_init.lookup "demo" = none
      ∧ core_env.first_type_id.lookup "demo" = none
      ∧ 200 + ["demo::a", "demo::b", "demo::c"].length ≤ 65536
      ∧ ["demo::a", "demo::b", "demo::c"].Nodup
      ∧ core_env.fresh_types ["demo::a", "demo::b", "demo::c"] 200)
    ∧ ∃ t, translate core_env (Decl.BEGIN_TYPE_ID_BLOCK "demo" 200
          :: ["demo::a", "demo::b", "demo::c"].map (Decl.ADD_TYPE_ID "demo")) = .ok t
      ∧ (∀ k T, ["demo::a", "demo::b", "demo::c"][k]? = some T
          → type_id_v t T = some (200 + k))
      ∧ ["demo::a", "demo::b", "demo::c"].map (type_id_v t)
          = (List.range ["demo::a", "demo::b", "demo::c"].length).map
              (fun k => some (200 + k)) :=
  have h1 : core_env.type_id_counter_init.lookup "demo" = none := core_env_fresh_block_demo.1
  have h2 : core_env.first_type_id.lookup "demo" = none := core_env_fresh_block_demo.2.1
  have h3 : 200 + ["demo::a", "demo::b", "demo::c"].length ≤ 65536 := by decide
  have h4 : ["demo::a", "demo::b", "demo::c"].Nodup := by decide
  have h5 : core_env.fresh_types ["demo::a", "demo::b", "demo::c"] 200 :=
    core_env_fresh_types_demo
  ⟨⟨h1, h2, h3, h4, h5⟩,
    C1_block_identifiers core_env "demo" 200 ["demo::a", "demo::b", "demo::c"] h1 h2 h3 h4 h5⟩

/-! ## C2: the published end of a block -/

/-- C2, as stated, fails where `begin + count` leaves the 16-bit range: after the header, the
block `demo` opened with 65534 and registering two types is accepted with identifiers 65534
and 65535, and publishes `begin = 65534`, `end = 0`, not `65534 + 2`. -/
theorem C2_counterexample :
    (translate core_env (type_id_block "demo" 65534 ["demo::a", "demo::b"])).toOption.map
        (fun u => (type_id_v u "demo::a", type_id_v u "demo::b", u.id_blocks.lookup "demo"))
      = some (some 65534, some 65535, some { «begin» := 65534, «end» := 0 })
    ∧ (0 : Nat) ≠ 65534 + ["demo::a", "demo::b"].length := by
  refine ⟨?_, ?_⟩ <;> decide

/-- C2 (amended): a block on a fresh project name that registers `count` pairwise distinct,
unregistered types between its opening and its closing, with `begin + count < 65536`, is
accepted and publishes `end = begin + count`. -/
theorem C2_block_end (s : Env) (p : String) (f : Nat) (ts : List String)
    (hp : s.fresh_block p) (hlen : f + ts.length < 65536) (hnd : ts.Nodup)
    (hfresh : s.fresh_types ts f) :
    ∃ u blk, translate s (type_id_block p f ts) = .ok u
      ∧ u.id_blocks.lookup p = some blk
      ∧ blk.«begin» = f
      ∧ blk.«end» = blk.«begin» + ts.length := by
  obtain ⟨u, hu, C⟩ := translate_type_id_block s p f ts hp (by omega) hnd hfresh
  refine ⟨u, { «begin» := to_type_id_t f, «end» := to_type_id_t ((f : Int) + ts.length) },
    hu, ?_, ?_, ?_⟩
  · rw [C.id_blocks]
    exact lookup_cons_self _ _ _
  · show to_type_id_t (f : Int) = f
    unfold to_type_id_t; omega
  · show to_type_id_t ((f : Int) + ts.length) = to_type_id_t (f : Int) + ts.length
    unfold to_type_id_t; omega

/-- Witness for C2: after the header, the block `demo` opened with 200 on three new types. -/
theorem C2_block_end_witness :
    (core_env.fresh_block "demo"
      ∧ 200 + ["demo::a", "demo::b", "demo::c"].length < 65536
      ∧ ["demo::a", "demo::b", "demo::c"].Nodup
      ∧ core_env.fresh_types ["demo::a", "demo::b", "demo::c"] 200)
    ∧ ∃ u blk, translate core_env (type_id_block "demo" 200 ["demo::a", "demo::b", "demo::c"])
          = .ok u
      ∧ u.id_blocks.lookup "demo" = some blk
      ∧ blk.«begin» = 200
      ∧ blk.«end» = blk.«begin» + ["demo::a", "demo::b", "demo::c"].length :=
  have h1 : core_env.fresh_block "demo" := core_env_fresh_block_demo
  have h2 : 200 + ["demo::a", "demo::b", "demo::c"].length < 65536 := by decide
  have h3 : ["demo::a", "demo::b", "demo::c"].Nodup := by decide
  have h4 : core_env.fresh_types ["demo::a", "demo::b", "demo::c"] 200 :=
    core_env_fresh_types_demo
  ⟨⟨h1, h2, h3, h4⟩,
    C2_block_end core_env "demo" 200 ["demo::a", "demo::b", "demo::c"] h1 h2 h3 h4⟩

/-! ## C3: the bijection between types, identifiers and names -/

/-- C3: in every translation unit accepted so far, each registered type `T` with identifier
`V` has `type_by_id<V>::type` equal to `T` and `type_name_by_id<V>::value` equal to the
spelling of `T`, and two types with the same identifier are the same type. A further block on
a fresh project name with pairwise distinct, unregistered types and unregistered identifiers,
`firstId + N ≤ 65536`, is accepted; its types receive pairwise different identifiers, each
of which maps back to its one type, and the properties above hold after it as well. -/
theorem C3_bijection (c0 : Nat) (ds : List Decl) (s : Env)
    (hs : translate (Env.init c0) ds = .ok s)
    (p : String) (firstId : Nat) (ts : List String)
    (hp : s.fresh_block p) (hlen : firstId + ts.length ≤ 65536) (hnd : ts.Nodup)
    (hfresh : s.fresh_types ts firstId) :
    (∀ T V, type_id_v s T = some V →
        type_by_id_t s V = some T ∧ type_name_by_id_v s V = some (CAF_PP_STR T))
    ∧ (∀ T1 T2 V, type_id_v s T1 = some V → type_id_v s T2 = some V → T1 = T2)
    ∧ ∃ u, translate s (type_id_block p firstId ts) = .ok u
      ∧ (∀ T V, type_id_v u T = some V →
          type_by_id_t u V = some T ∧ type_name_by_id_v u V = some (CAF_PP_STR T))
      ∧ (∀ (i j : Nat) Ti Tj, ts[i]? = some Ti → ts[j]? = some Tj → i ≠ j →
          ∃ Vi Vj, type_id_v u Ti = some Vi ∧ type_id_v u Tj = some Vj ∧ Vi ≠ Vj)
      ∧ (∀ (i : Nat) Ti, ts[i]? = some Ti →
          ∃ Vi, type_id_v u Ti = some Vi ∧ type_by_id_t u Vi = some Ti
            ∧ ∀ T, type_id_v u T = some Vi → T = Ti) := by
  have key : ∀ e : Env, e.bijective →
      (∀ T V, type_id_v e T = some V →
        type_by_id_t e V = some T ∧ type_name_by_id_v e V = some (CAF_PP_STR T))
      ∧ (∀ T1 T2 V, type_id_v e T1 = some V → type_id_v e T2 = some V → T1 = T2) := by
    intro e he
    refine ⟨?_, ?_⟩
    · intro T V h
      obtain ⟨b1, b2, b3⟩ := he T V h
      refine ⟨b1, ?_⟩
      unfold type_name_by_id_v
      rw [b2]
      exact b3
    · intro T1 T2 V h1 h2
      have a1 := (he T1 V h1).1
      have a2 := (he T2 V h2).1
      rw [a1] at a2
      exact Option.some.inj a2
  have hsb : s.bijective := bijective_translate ds _ s (bijective_init c0) hs
  obtain ⟨u, hu, C⟩ := translate_type_id_block s p firstId ts hp hlen hnd hfresh
  have hub : u.bijective := bijective_translate _ s u hsb hu
  refine ⟨(key s hsb).1, (key s hsb).2, u, hu, (key u hub).1, ?_, ?_⟩
  · intro i j Ti Tj hi hj hij
    exact ⟨firstId + i, firstId + j, C.registers.type_id_new i Ti hi,
      C.registers.type_id_new j Tj hj, by omega⟩
  · intro i Ti hi
    refine ⟨firstId + i, C.registers.type_id_new i Ti hi,
      C.registers.type_by_id_new i Ti hi, ?_⟩
    intro T hT
    exact (key u hub).2 T Ti _ hT (C.registers.type_id_new i Ti hi)

/-- Witness for C3: the translation unit is the header, the further block is `demo`, opened
with 200 on three new types. -/
theorem C3_bijection_witness :
    (translate (Env.init 0) core_module = .ok core_env
      ∧ core_env.fresh_block "demo"
      ∧ 200 + ["demo::a", "demo::b", "demo::c"].length ≤ 65536
      ∧ ["demo::a", "demo::b", "demo::c"].Nodup
      ∧ core_env.fresh_types ["demo::a", "demo::b", "demo::c"] 200)
    ∧ (∀ T V, type_id_v core_env T = some V →
        type_by_id_t core_env V = some T ∧ type_name_by_id_v core_env V = some (CAF_PP_STR T))
    ∧ (∀ T1 T2 V, type_id_v core_env T1 = some V → type_id_v core_env T2 = some V → T1 = T2)
    ∧ ∃ u, translate core_env (type_id_block "demo" 200 ["demo::a", "demo::b", "demo::c"])
          = .ok u
      ∧ (∀ T V, type_id_v u T = some V →
          type_by_id_t u V = some T ∧ type_name_by_id_v u V = some (CAF_PP_STR T))
      ∧ (∀ (i j : Nat) Ti Tj, ["demo::a", "demo::b", "demo::c"][i]? = some Ti
          → ["demo::a", "demo::b", "demo::c"][j]? = some Tj → i ≠ j →
          ∃ Vi Vj, type_id_v u Ti = some Vi ∧ type_id_v u Tj = some Vj ∧ Vi ≠ Vj)
      ∧ (∀ (i : Nat) Ti, ["demo::a", "demo::b", "demo::c"][i]? = some Ti →
          ∃ Vi, type_id_v u Ti = some Vi ∧ type_by_id_t u Vi = some Ti
            ∧ ∀ T, type_id_v u T = some Vi → T = Ti) :=
  have h0 : translate (Env.init 0) core_module = .ok core_env := core_env_ok
  have h1 : core_env.fresh_block "demo" := core_env_fresh_block_demo
  have h2 : 200 + ["demo::a", "demo::b", "demo::c"].length ≤ 65536 := by decide
  have h3 : ["demo::a", "demo::b", "demo::c"].Nodup := by decide
  have h4 : core_env.fresh_types ["demo::a", "demo::b", "demo::c"] 200 :=
    core_env_fresh_types_demo
  ⟨⟨h0, h1, h2, h3, h4⟩,
    C3_bijection 0 core_module core_env h0 "demo" 200 ["demo::a", "demo::b", "demo::c"]
      h1 h2 h3 h4⟩

/-! ## C4: the reserved range table -/

/-- C4: at every value of `__COUNTER__` the header is accepted (its static assertion holds);
the core block is `[0, 49)` and every identifier registered by the header lies in it;
`io_module_begin` is the end of the core block, `net_module_begin` is `io_module_end`, the io
range is `[49, 68)`, the net range is `[68, 69)`, and `net_module_end ≤ first_custom_type_id
= 200`; the three ranges are pairwise disjoint and every identifier below `net_module_end`
is below `first_custom_type_id`. -/
theorem C4_reserved_ranges (c0 : Nat) :
    ∃ env core, type_id_hpp c0 = .ok env
      ∧ env.id_blocks.lookup "core_module" = some core
      ∧ core.«begin» = 0 ∧ core.«end» = 49
      ∧ (∀ T V, type_id_v env T = some V → core.«begin» ≤ V ∧ V < core.«end»)
      ∧ io_module_begin core.«end» = core.«end»
      ∧ net_module_begin core.«end» = io_module_end core.«end»
      ∧ io_module_begin core.«end» = 49 ∧ io_module_end core.«end» = 68
      ∧ net_module_begin core.«end» = 68 ∧ net_module_end core.«end» = 69
      ∧ net_module_end core.«end» ≤ first_custom_type_id
      ∧ first_custom_type_id = 200
      ∧ (∀ V, ¬ (core.«begin» ≤ V ∧ V < core.«end»
            ∧ io_module_begin core.«end» ≤ V ∧ V < io_module_end core.«end»))
      ∧ (∀ V, ¬ (core.«begin» ≤ V ∧ V < core.«end»
            ∧ net_module_begin core.«end» ≤ V ∧ V < net_module_end core.«end»))
      ∧ (∀ V, ¬ (io_module_begin core.«end» ≤ V ∧ V < io_module_end core.«end»
            ∧ net_module_begin core.«end» ≤ V ∧ V < net_module_end core.«end»))
      ∧ (∀ V, V < net_module_end core.«end» → V < first_custom_type_id) := by
  obtain ⟨env, h1, _, _, hblk, _, R⟩ := type_id_hpp_ok c0
  have e1 : io_module_begin 49 = 49 := by decide
  have e2 : io_module_end 49 = 68 := by decide
  have e3 : net_module_begin 49 = 68 := by decide
  have e4 : net_module_end 49 = 69 := by decide
  have e5 : first_custom_type_id = 200 := rfl
  refine ⟨env, { «begin» := 0, «end» := 49 }, h1, by rw [hblk]; rfl, rfl, rfl, ?_,
    rfl, rfl, e1, e2, e3, e4, by decide, e5, ?_, ?_, ?_, ?_⟩
  rotate_left
  · intro V; show ¬ (0 ≤ V ∧ V < 49 ∧ io_module_begin 49 ≤ V ∧ V < io_module_end 49)
    rw [e1, e2]; omega
  · intro V; show ¬ (0 ≤ V ∧ V < 49 ∧ net_module_begin 49 ≤ V ∧ V < net_module_end 49)
    rw [e3, e4]; omega
  · intro V
    show ¬ (io_module_begin 49 ≤ V ∧ V < io_module_end 49
      ∧ net_module_begin 49 ≤ V ∧ V < net_module_end 49)
    rw [e1, e2, e3, e4]; omega
  · intro V; show V < net_module_end 49 → V < first_custom_type_id
    rw [e4, e5]; omega
  intro T V hTV
  show 0 ≤ V ∧ V < 49
  unfold type_id_v at hTV
  by_cases hT : T ∈ core_module_types
  · obtain ⟨k, hk⟩ := List.getElem?_of_mem hT
    have hlt := getElem?_lt _ _ _ hk
    have hlen : core_module_types.length = 49 := by decide
    rw [R.type_id_new k T hk] at hTV
    simp only [Option.some.injEq] at hTV
    omega
  · rw [R.type_id_old T hT] at hTV
    cases hTV

/-! ## C5: what the closing of a block publishes -/

/-- C5, as stated, fails where the identifier after the last one leaves the 16-bit range:
after the header, the block `demo` opened with 65535 and registering one type is accepted,
the type has identifier 65535 and `last_type_id` is 65535, but the published `end` is 0,
not `65535 + 1`. -/
theorem C5_counterexample :
    (translate core_env (type_id_block "demo" 65535 ["demo::a"])).toOption.map
        (fun u => (type_id_v u "demo::a", u.last_type_id.lookup "demo",
          u.id_blocks.lookup "demo"))
      = some (some 65535, some 65535, some { «begin» := 65535, «end» := 0 })
    ∧ (0 : Nat) ≠ 65535 + 1 := by
  refine ⟨?_, ?_⟩ <;> decide

/-- C5 (amended): a block on a fresh project name, opened with `firstId` when `__COUNTER__`
stands at `baseline`, that registers `N ≥ 1` pairwise distinct, unregistered types with
`firstId + N < 65536` is accepted; its closing expands `__COUNTER__` at
`finalTick = baseline + 1 + N` and publishes `begin = firstId` and `end = lastId + 1` with
`lastId = firstId + (finalTick - baseline - 2)`; `begin` is the identifier of the first
registered type and `end` is the identifier of the last registered type plus one. -/
theorem C5_block_descriptor (s : Env) (p : String) (firstId : Nat) (ts : List String)
    (hp : s.fresh_block p) (hpos : 0 < ts.length) (hlen : firstId + ts.length < 65536)
    (hnd : ts.Nodup) (hfresh : s.fresh_types ts firstId) :
    ∃ u blk lastId Tfirst Tlast, translate s (type_id_block p firstId ts) = .ok u
      ∧ u.id_blocks.lookup p = some blk
      ∧ u.last_type_id.lookup p = some lastId
      ∧ blk.«begin» = firstId
      ∧ blk.«end» = lastId + 1
      ∧ (lastId : Int)
          = (firstId : Int) + (((s.COUNTER + 1 + ts.length : Nat) : Int) - s.COUNTER - 2)
      ∧ u.COUNTER = (s.COUNTER + 1 + ts.length) + 1
      ∧ ts[0]? = some Tfirst ∧ type_id_v u Tfirst = some blk.«begin»
      ∧ ts[ts.length - 1]? = some Tlast ∧ type_id_v u Tlast = some lastId := by
  obtain ⟨u, hu, C⟩ := translate_type_id_block s p firstId ts hp (by omega) hnd hfresh
  have hlast : to_type_id_t ((firstId : Int) + ts.length - 1) = firstId + (ts.length - 1) := by
    unfold to_type_id_t; omega
  have hbegin : to_type_id_t (firstId : Int) = firstId := by
    unfold to_type_id_t; omega
  have hend : to_type_id_t ((firstId : Int) + ts.length) = firstId + (ts.length - 1) + 1 := by
    unfold to_type_id_t; omega
  refine ⟨u, { «begin» := firstId, «end» := firstId + (ts.length - 1) + 1 },
    firstId + (ts.length - 1), ts[0], ts[ts.length - 1], hu, ?_, ?_, rfl, rfl, ?_, ?_,
    List.getElem?_eq_getElem hpos, ?_, List.getElem?_eq_getElem (by omega), ?_⟩
  · rw [C.id_blocks, hbegin, hend]
    exact lookup_cons_self _ _ _
  · rw [C.last_type_id, hlast]
    exact lookup_cons_self _ _ _
  · omega
  · rw [C.COUNTER]; omega
  · have h := C.registers.type_id_new 0 _ (List.getElem?_eq_getElem hpos)
    exact h
  · exact C.registers.type_id_new (ts.length - 1) _ (List.getElem?_eq_getElem (by omega))

/-- Witness for C5: after the header, the block `demo` opened with 200 on three new types. -/
theorem C5_block_descriptor_witness :
    (core_env.fresh_block "demo"
      ∧ 0 < ["demo::a", "demo::b", "demo::c"].length
      ∧ 200 + ["demo::a", "demo::b", "demo::c"].length < 65536
      ∧ ["demo::a", "demo::b", "demo::c"].Nodup
      ∧ core_env.fresh_types ["demo::a", "demo::b", "demo::c"] 200)
    ∧ ∃ u blk lastId Tfirst Tlast,
        translate core_env (type_id_block "demo" 200 ["demo::a", "demo::b", "demo::c"]) = .ok u
      ∧ u.id_blocks.lookup "demo" = some blk
      ∧ u.last_type_id.lookup "demo" = some lastId
      ∧ blk.«begin» = 200
      ∧ blk.«end» = lastId + 1
      ∧ (lastId : Int)
          = (200 : Int) + (((core_env.COUNTER + 1
              + ["demo::a", "demo::b", "demo::c"].length : Nat) : Int) - core_env.COUNTER - 2)
      ∧ u.COUNTER = (core_env.COUNTER + 1 + ["demo::a", "demo::b", "demo::c"].length) + 1
      ∧ ["demo::a", "demo::b", "demo::c"][0]? = some Tfirst
      ∧ type_id_v u Tfirst = some blk.«begin»
      ∧ ["demo::a", "demo::b", "demo::c"][["demo::a", "demo::b", "demo::c"].length - 1]?
          = some Tlast
      ∧ type_id_v u Tlast = some lastId :=
  have h1 : core_env.fresh_block "demo" := core_env_fresh_block_demo
  have h2 : 0 < ["demo::a", "demo::b", "demo::c"].length := by decide
  have h3 : 200 + ["demo::a", "demo::b", "demo::c"].length < 65536 := by decide
  have h4 : ["demo::a", "demo::b", "demo::c"].Nodup := by decide
  have h5 : core_env.fresh_types ["demo::a", "demo::b", "demo::c"] 200 :=
    core_env_fresh_types_demo
  ⟨⟨h1, h2, h3, h4, h5⟩,
    C5_block_descriptor core_env "demo" 200 ["demo::a", "demo::b", "demo::c"] h1 h2 h3 h4 h5⟩

/-! ## C6: the `demo` scenario -/

/-- C6, as stated, fails: `float` is registered by the core module (line 164, identifier 2).
After the header the block `demo` is opened with 200, but `CAF_ADD_TYPE_ID(demo, (float))` is
a redefinition of `type_id<float>` and is rejected; the block that registers `int`, `float`,
`string` is rejected and `float` keeps identifier 2. -/
theorem C6_counterexample :
    type_id_v core_env "float" = some 2
    ∧ (translate core_env [Decl.BEGIN_TYPE_ID_BLOCK "demo" 200]).toOption.map
          (fun t => rejected_with (CAF_ADD_TYPE_ID "demo" "float" t))
        = some (some build_error.redefinition)
    ∧ rejected_with (translate core_env (type_id_block "demo" 200 ["int", "float", "string"]))
        = some build_error.redefinition := by
  refine ⟨?_, ?_, ?_⟩ <;> decide

/-- C6 (amended): a block named `demo` opened with `firstId = 200` that registers three
pairwise distinct types `A`, `B`, `C` not registered before, in that order, with identifiers
200 to 202 still unregistered, is accepted and yields `id(A) = 200`, `id(B) = 201`,
`id(C) = 202`, and its closing publishes `begin = 200`, `end = 203`. -/
theorem C6_demo_scenario (s : Env) (A B C : String)
    (hp : s.fresh_block "demo") (hnd : [A, B, C].Nodup)
    (hfresh : s.fresh_types [A, B, C] 200) :
    ∃ u, translate s (type_id_block "demo" 200 [A, B, C]) = .ok u
      ∧ type_id_v u A = some 200 ∧ type_id_v u B = some 201 ∧ type_id_v u C = some 202
      ∧ u.id_blocks.lookup "demo" = some { «begin» := 200, «end» := 203 } := by
  obtain ⟨u, hu, K⟩ := translate_type_id_block s "demo" 200 [A, B, C] hp
    (by simp) hnd hfresh
  refine ⟨u, hu, K.registers.type_id_new 0 A rfl, K.registers.type_id_new 1 B rfl,
    K.registers.type_id_new 2 C rfl, ?_⟩
  rw [K.id_blocks]
  exact lookup_cons_self _ _ _

/-- Witness for C6: after the header, with the new types `demo::a`, `demo::b`, `demo::c`. -/
theorem C6_demo_scenario_witness :
    (core_env.fresh_block "demo" ∧ ["demo::a", "demo::b", "demo::c"].Nodup
      ∧ core_env.fresh_types ["demo::a", "demo::b", "demo::c"] 200)
    ∧ ∃ u, translate core_env (type_id_block "demo" 200 ["demo::a", "demo::b", "demo::c"])
          = .ok u
      ∧ type_id_v u "demo::a" = some 200 ∧ type_id_v u "demo::b" = some 201
      ∧ type_id_v u "demo::c" = some 202
      ∧ u.id_blocks.lookup "demo" = some { «begin» := 200, «end» := 203 } :=
  have h1 : core_env.fresh_block "demo" := core_env_fresh_block_demo
  have h2 : ["demo::a", "demo::b", "demo::c"].Nodup := by decide
  have h3 : core_env.fresh_types ["demo::a", "demo::b", "demo::c"] 200 :=
    core_env_fresh_types_demo
  ⟨⟨h1, h2, h3⟩, C6_demo_scenario core_env "demo::a" "demo::b" "demo::c" h1 h2 h3⟩

/-! ## C7: `CAF_ADD_ATOM` -/

/-- C7, evaluated: after the header, in the block `demo` opened with 200, the type `demo::a`
receives 200; `CAF_ADD_ATOM(demo, ns, pingTag, "ping")` defines the constant with text
`ping` but `ns::pingTag` receives no identifier; the next type `demo::b` receives 201, the
identifier the tag was to have, and the block closes as `[200, 202)`. Likewise none of the 42
atoms of the core module has an identifier and the core block is `[0, 49)`. -/
theorem C7_atom_without_identifier :
    (translate core_env [Decl.BEGIN_TYPE_ID_BLOCK "demo" 200,
        Decl.ADD_TYPE_ID "demo" "demo::a",
        Decl.ADD_ATOM "demo" "ns" "pingTag" "ping",
        Decl.ADD_TYPE_ID "demo" "demo::b",
        Decl.END_TYPE_ID_BLOCK "demo"]).toOption.map
        (fun u => (type_id_v u "demo::a", u.atom_constants.lookup ("ns", "pingTag"),
          type_id_v u "ns::pingTag"))
      = some (some 200, some "ping", none)
    ∧ (translate core_env [Decl.BEGIN_TYPE_ID_BLOCK "demo" 200,
        Decl.ADD_TYPE_ID "demo" "demo::a",
        Decl.ADD_ATOM "demo" "ns" "pingTag" "ping",
        Decl.ADD_TYPE_ID "demo" "demo::b",
        Decl.END_TYPE_ID_BLOCK "demo"]).toOption.map
        (fun u => (type_id_v u "demo::b", type_by_id_t u 201, u.id_blocks.lookup "demo"))
      = some (some 201, some "demo::b", some { «begin» := 200, «end» := 202 })
    ∧ core_module_atoms.all (fun a => (type_id_v core_env ("caf::" ++ a.1)).isNone) = true
    ∧ core_module_atoms.length = 42
    ∧ core_env.id_blocks.lookup "core_module" = some { «begin» := 0, «end» := 49 } := by
  refine ⟨?_, ?_, ?_, ?_, ?_⟩ <;> decide

/-! ## C8 and C9: serialization of `optional` -/

/-- C8, evaluated: whenever loading returns, the container is empty, also when the flag was
set and the payload was decoded: the assignment `x = none` (line 258) follows the branch
unconditionally. From the bytes `[1, 42]` the payload 42 is consumed and `x` is left empty;
with flag 0 the container is emptied, as claimed. -/
theorem C8_load_always_empties :
    (∀ (P T : Type) (proc : loading_processor P T) (source : P) (x : optional T),
      (serialize_loading proc source x).map Prod.snd
        = (serialize_loading proc source x).map (fun _ => optional.none))
    ∧ serialize_loading (byte_source dec_uint8_t) [1, 42] optional.none
        = some ([], optional.none)
    ∧ serialize_loading (byte_source dec_uint8_t) [1, 42] (optional.some 7)
        = some ([], optional.none)
    ∧ serialize_loading (byte_source dec_uint8_t) [0, 42] (optional.some 7)
        = some ([42], optional.none) := by
  refine ⟨?_, rfl, rfl, rfl⟩
  intro P T proc source x
  unfold serialize_loading
  cases proc.apply_uint8_t source with
  | none => rfl
  | some r =>
    obtain ⟨flag, source1⟩ := r
    show Option.map Prod.snd (if flag ≠ 0 then _ else _)
      = Option.map (fun _ => optional.none) (if flag ≠ 0 then _ else _)
    by_cases hflag : flag ≠ 0
    · rw [if_pos hflag]
      cases proc.apply_value source1 with
      | none => rfl
      | some r2 =>
        obtain ⟨value, source2⟩ := r2
        cases x <;> rfl
    · rw [if_neg hflag]
      cases x <;> rfl

/-- C9: saving a present optional applies the processor to the flag 1 and then to the
payload; saving an empty optional applies it to the flag 0 only; `x` is returned as it was.
On a byte sink the output grows by `1` followed by the encoding of the payload, or by the
single byte `0`. -/
theorem C9_save (P T : Type) (proc : saving_processor P T) (sink : P) (m_value : T)
    (enc : T → List Nat) (out : List Nat) :
    serialize_saving proc sink (optional.some m_value)
        = (proc.apply_value (proc.apply_uint8_t sink 1) m_value, optional.some m_value)
    ∧ serialize_saving proc sink (optional.none : optional T)
        = (proc.apply_uint8_t sink 0, optional.none)
    ∧ serialize_saving (byte_sink enc) out (optional.some m_value)
        = (out ++ [1] ++ enc m_value, optional.some m_value)
    ∧ serialize_saving (byte_sink enc) out (optional.none : optional T)
        = (out ++ [0], optional.none) :=
  ⟨rfl, rfl, rfl, rfl⟩

/-! ## C10: appending a block at the published end of another -/

theorem fresh_block_of_closes (s u : Env) (p q : String) (f : Nat) (ts : List String)
    (K : Closes s u p f ts) (hq : s.fresh_block q) (hpq : q ≠ p) : u.fresh_block q := by
  obtain ⟨h1, h2, h3, h4⟩ := hq
  refine ⟨?_, ?_, ?_, ?_⟩
  · rw [K.type_id_counter_init, lookup_cons_ne _ _ _ _ hpq]; exact h1
  · rw [K.first_type_id, lookup_cons_ne _ _ _ _ hpq]; exact h2
  · rw [K.last_type_id, lookup_cons_ne _ _ _ _ hpq]; exact h3
  · rw [K.id_blocks, lookup_cons_ne _ _ _ _ hpq]; exact h4

/-- C10: let a block `p`, opened with `f`, register the types `ts1`, and let a block `q` be
opened right after it with the published `end` of `p` and register the types `ts2`, all
types pairwise distinct and unregistered, the identifiers from `f` on unregistered and
`f + |ts1| + |ts2| ≤ 65536`. Then both blocks are accepted, `q.begin = p.end`, the types of
`ts1` hold `f, f + 1, ...`, the types of `ts2` hold `f + |ts1|, f + |ts1| + 1, ...`, and no
identifier of the second block is an identifier of the first. -/
theorem C10_appended_block (s : Env) (p q : String) (f : Nat) (ts1 ts2 : List String)
    (hp : s.fresh_block p) (hq : s.fresh_block q) (hpq : q ≠ p)
    (hlen : f + ts1.length + ts2.length ≤ 65536) (hnd : (ts1 ++ ts2).Nodup)
    (hfresh : s.fresh_types (ts1 ++ ts2) f) :
    ∃ u first w second, translate s (type_id_block p f ts1) = .ok u
      ∧ u.id_blocks.lookup p = some first
      ∧ translate u (type_id_block q first.«end» ts2) = .ok w
      ∧ w.id_blocks.lookup q = some second
      ∧ w.id_blocks.lookup p = some first
      ∧ second.«begin» = first.«end»
      ∧ (∀ k T, ts1[k]? = some T → type_id_v w T = some (f + k))
      ∧ (∀ k T, ts2[k]? = some T → type_id_v w T = some (f + ts1.length + k))
      ∧ (∀ T1 ∈ ts1, ∀ T2 ∈ ts2, ∀ V1 V2,
          type_id_v w T1 = some V1 → type_id_v w T2 = some V2 → V1 ≠ V2) := by
  obtain ⟨hnd1, hnd2, hdisj⟩ := List.nodup_append.mp hnd
  have hlenapp : (ts1 ++ ts2).length = ts1.length + ts2.length := List.length_append ts1 ts2
  -- the first block
  have hfresh1 : s.fresh_types ts1 f :=
    ⟨fun T hT => hfresh.1 T (List.mem_append_left ts2 hT),
     fun k hk => hfresh.2 k (by rw [hlenapp]; omega)⟩
  obtain ⟨u, hu, K1⟩ := translate_type_id_block s p f ts1 hp (by omega) hnd1 hfresh1
  -- the second block, opened with the published end of the first
  have he : to_type_id_t ((f : Int) + ts1.length) + ts2.length ≤ 65536 := by
    unfold to_type_id_t; omega
  have he2 : 0 < ts2.length → to_type_id_t ((f : Int) + ts1.length) = f + ts1.length := by
    intro h; unfold to_type_id_t; omega
  have hfresh2 : u.fresh_types ts2 (to_type_id_t ((f : Int) + ts1.length)) := by
    refine ⟨?_, ?_⟩
    · intro T hT
      have hT1 : T ∉ ts1 := fun h1 => hdisj h1 hT
      rw [K1.registers.type_id_old T hT1, K1.registers.type_name_old T hT1]
      exact hfresh.1 T (List.mem_append_right ts1 hT)
    · intro k hk
      rw [he2 (by omega), K1.registers.type_by_id_old _ (Or.inr (by omega)),
        K1.registers.type_name_by_id_old _ (Or.inr (by omega))]
      have h := hfresh.2 (ts1.length + k) (by rw [hlenapp]; omega)
      rw [← Nat.add_assoc] at h
      exact h
  obtain ⟨w, hw, K2⟩ := translate_type_id_block u q (to_type_id_t ((f : Int) + ts1.length))
    ts2 (fresh_block_of_closes s u p q f ts1 K1 hq hpq) he hnd2 hfresh2
  have hid1 : ∀ k T, ts1[k]? = some T → type_id_v w T = some (f + k) := by
    intro k T hk
    have hT2 : T ∉ ts2 := fun h2 => hdisj (List.getElem?_mem hk) h2
    unfold type_id_v
    rw [K2.registers.type_id_old T hT2]
    exact K1.registers.type_id_new k T hk
  have hid2 : ∀ k T, ts2[k]? = some T → type_id_v w T = some (f + ts1.length + k) := by
    intro k T hk
    have hlt := getElem?_lt _ _ _ hk
    unfold type_id_v
    rw [K2.registers.type_id_new k T hk, he2 (by omega)]
  refine ⟨u, { «begin» := to_type_id_t f, «end» := to_type_id_t ((f : Int) + ts1.length) },
    w, { «begin» := to_type_id_t (to_type_id_t ((f : Int) + ts1.length)),
         «end» := to_type_id_t
          (((to_type_id_t ((f : Int) + ts1.length) : Nat) : Int) + ts2.length) },
    hu, ?_, hw, ?_, ?_, ?_, hid1, hid2, ?_⟩
  · rw [K1.id_blocks]; exact lookup_cons_self _ _ _
  · rw [K2.id_blocks]; exact lookup_cons_self _ _ _
  · rw [K2.id_blocks, lookup_cons_ne _ _ _ _ hpq.symm, K1.id_blocks]
    exact lookup_cons_self _ _ _
  · show to_type_id_t (to_type_id_t ((f : Int) + ts1.length))
      = to_type_id_t ((f : Int) + ts1.length)
    unfold to_type_id_t; omega
  · intro T1 hT1 T2 hT2 V1 V2 hV1 hV2
    obtain ⟨k1, hk1⟩ := List.getElem?_of_mem hT1
    obtain ⟨k2, hk2⟩ := List.getElem?_of_mem hT2
    have hlt1 := getElem?_lt _ _ _ hk1
    rw [hid1 k1 T1 hk1] at hV1
    rw [hid2 k2 T2 hk2] at hV2
    simp only [Option.some.injEq] at hV1 hV2
    omega

/-- Witness for C10: after the header, the block `demo` opened with 200 on three new types,
followed by the block `demo2` opened with the end of `demo` on two new types. -/
theorem C10_appended_block_witness :
    (core_env.fresh_block "demo" ∧ core_env.fresh_block "demo2" ∧ "demo2" ≠ "demo"
      ∧ 200 + ["demo::a", "demo::b", "demo::c"].length + ["demo2::x", "demo2::y"].length
          ≤ 65536
      ∧ (["demo::a", "demo::b", "demo::c"] ++ ["demo2::x", "demo2::y"]).Nodup
      ∧ core_env.fresh_types
          (["demo::a", "demo::b", "demo::c"] ++ ["demo2::x", "demo2::y"]) 200)
    ∧ ∃ u first w second,
        translate core_env (type_id_block "demo" 200 ["demo::a", "demo::b", "demo::c"]) = .ok u
      ∧ u.id_blocks.lookup "demo" = some first
      ∧ translate u (type_id_block "demo2" first.«end» ["demo2::x", "demo2::y"]) = .ok w
      ∧ w.id_blocks.lookup "demo2" = some second
      ∧ w.id_blocks.lookup "demo" = some first
      ∧ second.«begin» = first.«end»
      ∧ (∀ k T, ["demo::a", "demo::b", "demo::c"][k]? = some T
          → type_id_v w T = some (200 + k))
      ∧ (∀ k T, ["demo2::x", "demo2::y"][k]? = some T
          → type_id_v w T = some (200 + ["demo::a", "demo::b", "demo::c"].length + k))
      ∧ (∀ T1 ∈ ["demo::a", "demo::b", "demo::c"], ∀ T2 ∈ ["demo2::x", "demo2::y"], ∀ V1 V2,
          type_id_v w T1 = some V1 → type_id_v w T2 = some V2 → V1 ≠ V2) :=
  have h1 : core_env.fresh_block "demo" := core_env_fresh_block_demo
  have h2 : core_env.fresh_block "demo2" := core_env_fresh_block_demo2
  have h3 : "demo2" ≠ "demo" := by decide
  have h4 : 200 + ["demo::a", "demo::b", "demo::c"].length + ["demo2::x", "demo2::y"].length
      ≤ 65536 := by decide
  have h5 : (["demo::a", "demo::b", "demo::c"] ++ ["demo2::x", "demo2::y"]).Nodup := by decide
  have h6 : core_env.fresh_types
      (["demo::a", "demo::b", "demo::c"] ++ ["demo2::x", "demo2::y"]) 200 :=
    core_env_fresh_types_demo2
  ⟨⟨h1, h2, h3, h4, h5, h6⟩,
    C10_appended_block core_env "demo" "demo2" 200 ["demo::a", "demo::b", "demo::c"]
      ["demo2::x", "demo2::y"] h1 h2 h3 h4 h5 h6⟩

/-! ## C11: three types in one block -/

/-- C11, as stated, fails for `firstId` 65534 and 65535: after the header the block `demo`
opened with 65534 gives its first two types 65534 and 65535, computes 0 for the third,
which `bool` holds, and is rejected; on empty tables the third type is assigned 0, below
the other two. -/
theorem C11_counterexample :
    (translate core_env [Decl.BEGIN_TYPE_ID_BLOCK "demo" 65534,
        Decl.ADD_TYPE_ID "demo" "demo::a",
        Decl.ADD_TYPE_ID "demo" "demo::b"]).toOption.map
          (fun t => (type_id_v t "demo::a", type_id_v t "demo::b"))
      = some (some 65534, some 65535)
    ∧ type_id_value 65534 (to_type_id_t core_env.COUNTER) (core_env.COUNTER + 3) = 0
    ∧ rejected_with (translate core_env [Decl.BEGIN_TYPE_ID_BLOCK "demo" 65534,
        Decl.ADD_TYPE_ID "demo" "demo::a", Decl.ADD_TYPE_ID "demo" "demo::b",
        Decl.ADD_TYPE_ID "demo" "demo::c"])
      = some build_error.redefinition
    ∧ (translate (Env.init 0) [Decl.BEGIN_TYPE_ID_BLOCK "demo" 65534,
        Decl.ADD_TYPE_ID "demo" "demo::a", Decl.ADD_TYPE_ID "demo" "demo::b",
        Decl.ADD_TYPE_ID "demo" "demo::c"]).toOption.map
          (fun t => (type_id_v t "demo::a", type_id_v t "demo::b", type_id_v t "demo::c"))
      = some (some 65534, some 65535, some 0) := by
  refine ⟨?_, ?_, ?_, ?_⟩ <;> decide

/-- C11 (amended): for every `firstId ≤ 65533` and every value of `__COUNTER__`, a block on a
fresh project name that registers three pairwise distinct, unregistered types `A`, `B`, `C`
in this order, the identifiers `firstId .. firstId + 2` being unregistered, is accepted with
`id(B) = id(A) + 1` and `id(C) = id(B) + 1`, hence `id(A) < id(B) < id(C)`. -/
theorem C11_monotonic (s : Env) (p : String) (firstId : Nat) (A B C : String)
    (hf : firstId ≤ 65533) (hp : s.fresh_block p) (hnd : [A, B, C].Nodup)
    (hfresh : s.fresh_types [A, B, C] firstId) :
    ∃ u idA idB idC, translate s (type_id_block p firstId [A, B, C]) = .ok u
      ∧ type_id_v u A = some idA ∧ type_id_v u B = some idB ∧ type_id_v u C = some idC
      ∧ idA = firstId ∧ idB = idA + 1 ∧ idC = idB + 1 ∧ idA < idB ∧ idB < idC := by
  obtain ⟨u, hu, K⟩ := translate_type_id_block s p firstId [A, B, C] hp
    (by simp; omega) hnd hfresh
  exact ⟨u, firstId, firstId + 1, firstId + 2, hu, K.registers.type_id_new 0 A rfl,
    K.registers.type_id_new 1 B rfl, K.registers.type_id_new 2 C rfl, rfl, rfl, rfl,
    by omega, by omega⟩

/-- Witness for C11: after the header, the block `demo` opened with 200 on three new types. -/
theorem C11_monotonic_witness :
    ((200 : Nat) ≤ 65533 ∧ core_env.fresh_block "demo"
      ∧ ["demo::a", "demo::b", "demo::c"].Nodup
      ∧ core_env.fresh_types ["demo::a", "demo::b", "demo::c"] 200)
    ∧ ∃ u idA idB idC,
        translate core_env (type_id_block "demo" 200 ["demo::a", "demo::b", "demo::c"]) = .ok u
      ∧ type_id_v u "demo::a" = some idA ∧ type_id_v u "demo::b" = some idB
      ∧ type_id_v u "demo::c" = some idC
      ∧ idA = 200 ∧ idB = idA + 1 ∧ idC = idB + 1 ∧ idA < idB ∧ idB < idC :=
  have h1 : (200 : Nat) ≤ 65533 := by decide
  have h2 : core_env.fresh_block "demo" := core_env_fresh_block_demo
  have h3 : ["demo::a", "demo::b", "demo::c"].Nodup := by decide
  have h4 : core_env.fresh_types ["demo::a", "demo::b", "demo::c"] 200 :=
    core_env_fresh_types_demo
  ⟨⟨h1, h2, h3, h4⟩,
    C11_monotonic core_env "demo" 200 "demo::a" "demo::b" "demo::c" h1 h2 h3 h4⟩

/-! ## Independence of the counter baseline -/

theorem same_outcome_ADD_TYPE_ID (p T : String) (a b : Env) (h : Env.same_ids p a b) :
    same_outcome p (CAF_ADD_TYPE_ID p T a) (CAF_ADD_TYPE_ID p T b) := by
  obtain ⟨h1, h2, h3, h4, h5, h6, h7, h8, i1, i2, hi1, hi2, hc⟩ := h
  unfold CAF_ADD_TYPE_ID
  rw [hi1, hi2, ← h1]
  cases hf : a.first_type_id.lookup p with
  | none => simp only [same_outcome]
  | some first =>
    have hv : type_id_value first i1 a.COUNTER = type_id_value first i2 b.COUNTER := by
      unfold type_id_value to_type_id_t; omega
    simp only [← h4, ← h5, ← h6, ← h7, ← hv]
    split_ifs
    · simp only [same_outcome]
    · simp only [same_outcome]
    · simp only [same_outcome]
    · simp only [same_outcome]
    · simp only [same_outcome]
      refine ⟨rfl, h2, h3, rfl, rfl, rfl, rfl, h8, i1, i2, hi1, hi2, ?_⟩
      show ((((a.COUNTER + 1 : Nat) : Int) - i1) - (((b.COUNTER + 1 : Nat) : Int) - i2))
        % 65536 = 0
      omega

theorem same_outcome_END_TYPE_ID_BLOCK (p : String) (a b : Env) (h : Env.same_ids p a b) :
    same_outcome p (CAF_END_TYPE_ID_BLOCK p a) (CAF_END_TYPE_ID_BLOCK p b) := by
  obtain ⟨h1, h2, h3, h4, h5, h6, h7, h8, i1, i2, hi1, hi2, hc⟩ := h
  unfold CAF_END_TYPE_ID_BLOCK
  rw [hi1, hi2, ← h1]
  cases hf : a.first_type_id.lookup p with
  | none => simp only [same_outcome]
  | some first =>
    have hv : last_type_id_value first i1 a.COUNTER = last_type_id_value first i2 b.COUNTER := by
      unfold last_type_id_value to_type_id_t; omega
    simp only [← h2, ← h3, ← hv]
    split_ifs
    · simp only [same_outcome]
    · simp only [same_outcome]
      refine ⟨rfl, rfl, rfl, h4, h5, h6, h7, h8, i1, i2, hi1, hi2, ?_⟩
      show ((((a.COUNTER + 1 : Nat) : Int) - i1) - (((b.COUNTER + 1 : Nat) : Int) - i2))
        % 65536 = 0
      omega

/-- Related environments stay related, or are rejected alike, through the registrations and
the closing of the block `p`. -/
theorem same_outcome_translate (p : String) (ts : List String) :
    ∀ (a b : Env), Env.same_ids p a b →
      same_outcome p
        (translate a (ts.map (Decl.ADD_TYPE_ID p) ++ [Decl.END_TYPE_ID_BLOCK p]))
        (translate b (ts.map (Decl.ADD_TYPE_ID p) ++ [Decl.END_TYPE_ID_BLOCK p])) := by
  induction ts with
  | nil =>
    intro a b h
    have he := same_outcome_END_TYPE_ID_BLOCK p a b h
    simp only [List.map_nil, List.nil_append, translate, Decl.expand]
    cases ha : CAF_END_TYPE_ID_BLOCK p a <;> cases hb : CAF_END_TYPE_ID_BLOCK p b <;>
      rw [ha, hb] at he <;> simp only [same_outcome] at he ⊢ <;> exact he
  | cons T ts ih =>
    intro a b h
    have hs := same_outcome_ADD_TYPE_ID p T a b h
    simp only [List.map_cons, List.cons_append, translate, Decl.expand]
    cases ha : CAF_ADD_TYPE_ID p T a <;> cases hb : CAF_ADD_TYPE_ID p T b <;>
      rw [ha, hb] at hs <;> simp only [same_outcome] at hs
    · simp only [same_outcome]
      exact hs
    · exact ih _ _ hs

theorem forget_counter_of_same_outcome (p : String) (ra rb : Except build_error Env)
    (h : same_outcome p ra rb) :
    ra.map Env.forget_counter = rb.map Env.forget_counter := by
  cases ra with
  | error e1 =>
    cases rb with
    | error e2 =>
      simp only [same_outcome] at h
      subst h
      rfl
    | ok b => simp only [same_outcome] at h
  | ok a =>
    cases rb with
    | error e2 => simp only [same_outcome] at h
    | ok b =>
      simp only [same_outcome] at h
      obtain ⟨h1, h2, h3, h4, h5, h6, h7, h8, _⟩ := h
      show Except.ok _ = Except.ok _
      congr 1
      unfold Env.forget_counter
      simp only [h1, h2, h3, h4, h5, h6, h7, h8]

/-- The whole block gives the same outcome at the counter values `c1` and `c2`. -/
theorem same_outcome_block (s : Env) (c1 c2 : Nat) (p : String) (f : Nat) (ts : List String) :
    (translate { s with COUNTER := c1 } (type_id_block p f ts)).map Env.forget_counter
      = (translate { s with COUNTER := c2 } (type_id_block p f ts)).map Env.forget_counter := by
  unfold type_id_block
  simp only [translate, Decl.expand, CAF_BEGIN_TYPE_ID_BLOCK]
  split_ifs with hopen
  · rfl
  · apply forget_counter_of_same_outcome p
    apply same_outcome_translate
    refine ⟨rfl, rfl, rfl, rfl, rfl, rfl, rfl, rfl, to_type_id_t c1, to_type_id_t c2,
      lookup_cons_self _ _ _, lookup_cons_self _ _ _, ?_⟩
    show ((((c1 + 1 : Nat) : Int) - (to_type_id_t c1 : Nat))
      - (((c2 + 1 : Nat) : Int) - (to_type_id_t c2 : Nat))) % 65536 = 0
    unfold to_type_id_t; omega

theorem lookups_of_forget_counter (p : String) (ra rb : Except build_error Env)
    (h : ra.map Env.forget_counter = rb.map Env.forget_counter) :
    (∀ T, ra.toOption.bind (fun u => type_id_v u T) = rb.toOption.bind (fun u => type_id_v u T))
    ∧ (∀ V, ra.toOption.bind (fun u => type_by_id_t u V)
        = rb.toOption.bind (fun u => type_by_id_t u V))
    ∧ (∀ V, ra.toOption.bind (fun u => type_name_by_id_v u V)
        = rb.toOption.bind (fun u => type_name_by_id_v u V))
    ∧ ra.toOption.bind (fun u => u.id_blocks.lookup p)
        = rb.toOption.bind (fun u => u.id_blocks.lookup p)
    ∧ rejected_with ra = rejected_with rb := by
  cases ra with
  | error e1 =>
    cases rb with
    | error e2 =>
      have he : e1 = e2 := by
        have h2 : (Except.error e1 : Except build_error Env) = Except.error e2 := h
        exact Except.error.inj h2
      subst he
      exact ⟨fun _ => rfl, fun _ => rfl, fun _ => rfl, rfl, rfl⟩
    | ok b => cases h
  | ok a =>
    cases rb with
    | error e2 => cases h
    | ok b =>
      have h2 : Env.forget_counter a = Env.forget_counter b := Except.ok.inj h
      have e1 : a.type_id = b.type_id := (congrArg Env.type_id h2 : (Env.forget_counter a).type_id = (Env.forget_counter b).type_id)
      have e2 : a.type_by_id = b.type_by_id := (congrArg Env.type_by_id h2 : (Env.forget_counter a).type_by_id = (Env.forget_counter b).type_by_id)
      have e3 : a.type_name = b.type_name := (congrArg Env.type_name h2 : (Env.forget_counter a).type_name = (Env.forget_counter b).type_name)
      have e4 : a.type_name_by_id = b.type_name_by_id := (congrArg Env.type_name_by_id h2 : (Env.forget_counter a).type_name_by_id = (Env.forget_counter b).type_name_by_id)
      have e5 : a.id_blocks = b.id_blocks := (congrArg Env.id_blocks h2 : (Env.forget_counter a).id_blocks = (Env.forget_counter b).id_blocks)
      refine ⟨?_, ?_, ?_, ?_, rfl⟩
      · intro T; show a.type_id.lookup T = b.type_id.lookup T; rw [e1]
      · intro V; show a.type_by_id.lookup V = b.type_by_id.lookup V; rw [e2]
      · intro V
        show (a.type_name_by_id.lookup V).bind (fun T => a.type_name.lookup T)
          = (b.type_name_by_id.lookup V).bind (fun T => b.type_name.lookup T)
        rw [e3, e4]
      · show a.id_blocks.lookup p = b.id_blocks.lookup p; rw [e5]

/-! ## C12: identifiers do not depend on the counter baseline -/

/-- C12: in environments that differ only in the value of `__COUNTER__`, `c1` or `c2`, of any
size, the block opened with the same `firstId` on the same sequence of types has the same
outcome: it is rejected with the same error at both, or accepted at both with the same
identifier for every type, the same type and name for every identifier, the same published
block, and no other difference than `__COUNTER__` and the stored baselines. -/
theorem C12_baseline_independent (s : Env) (c1 c2 : Nat) (p : String) (firstId : Nat)
    (ts : List String) :
    (translate { s with COUNTER := c1 } (type_id_block p firstId ts)).map Env.forget_counter
      = (translate { s with COUNTER := c2 } (type_id_block p firstId ts)).map
          Env.forget_counter
    ∧ (∀ T,
        (translate { s with COUNTER := c1 } (type_id_block p firstId ts)).toOption.bind
            (fun u => type_id_v u T)
          = (translate { s with COUNTER := c2 } (type_id_block p firstId ts)).toOption.bind
            (fun u => type_id_v u T))
    ∧ (∀ V,
        (translate { s with COUNTER := c1 } (type_id_block p firstId ts)).toOption.bind
            (fun u => type_by_id_t u V)
          = (translate { s with COUNTER := c2 } (type_id_block p firstId ts)).toOption.bind
            (fun u => type_by_id_t u V))
    ∧ (∀ V,
        (translate { s with COUNTER := c1 } (type_id_block p firstId ts)).toOption.bind
            (fun u => type_name_by_id_v u V)
          = (translate { s with COUNTER := c2 } (type_id_block p firstId ts)).toOption.bind
            (fun u => type_name_by_id_v u V))
    ∧ (translate { s with COUNTER := c1 } (type_id_block p firstId ts)).toOption.bind
          (fun u => u.id_blocks.lookup p)
        = (translate { s with COUNTER := c2 } (type_id_block p firstId ts)).toOption.bind
          (fun u => u.id_blocks.lookup p)
    ∧ rejected_with (translate { s with COUNTER := c1 } (type_id_block p firstId ts))
        = rejected_with (translate { s with COUNTER := c2 } (type_id_block p firstId ts)) :=
  ⟨same_outcome_block s c1 c2 p firstId ts,
    lookups_of_forget_counter p _ _ (same_outcome_block s c1 c2 p firstId ts)⟩

/-! ## Persistence of registrations -/

/-- An accepted `CAF_ADD_TYPE_ID`: what it found and the environment it gives. -/
theorem CAF_ADD_TYPE_ID_accepted_env (p T : String) (s t : Env)
    (h : CAF_ADD_TYPE_ID p T s = .ok t) :
    ∃ first counter_init, s.first_type_id.lookup p = some first
      ∧ s.type_id_counter_init.lookup p = some counter_init
      ∧ s.type_id.lookup T = none
      ∧ s.type_by_id.lookup (type_id_value first counter_init s.COUNTER) = none
      ∧ t = { s with
          COUNTER := s.COUNTER + 1
          type_id := (T, type_id_value first counter_init s.COUNTER) :: s.type_id
          type_by_id := (type_id_value first counter_init s.COUNTER, T) :: s.type_by_id
          type_name := (T, CAF_PP_STR T) :: s.type_name
          type_name_by_id :=
            (type_id_value first counter_init s.COUNTER, T) :: s.type_name_by_id } := by
  unfold CAF_ADD_TYPE_ID at h
  split at h
  · rename_i first counter_init h1 h2
    refine ⟨first, counter_init, h1, h2, ?_⟩
    simp only at h
    split_ifs at h with c1 c2 c3 c4
    simp only [Except.ok.injEq] at h
    simp only [Option.not_isSome_iff_eq_none] at c1 c2
    exact ⟨c1, c2, h.symm⟩
  · cases h

/-- A registered type is rejected by `CAF_ADD_TYPE_ID` in an open block. -/
theorem CAF_ADD_TYPE_ID_registered (p T : String) (s : Env) (first counter_init V : Nat)
    (h1 : s.first_type_id.lookup p = some first)
    (h2 : s.type_id_counter_init.lookup p = some counter_init)
    (hT : s.type_id.lookup T = some V) :
    CAF_ADD_TYPE_ID p T s = .error .redefinition := by
  simp [CAF_ADD_TYPE_ID, h1, h2, hT]

/-- An identifier that is registered is rejected by `CAF_ADD_TYPE_ID`. -/
theorem CAF_ADD_TYPE_ID_registered_id (p T : String) (s : Env) (first counter_init : Nat)
    (h1 : s.first_type_id.lookup p = some first)
    (h2 : s.type_id_counter_init.lookup p = some counter_init)
    (hV : (s.type_by_id.lookup (type_id_value first counter_init s.COUNTER)).isSome = true) :
    CAF_ADD_TYPE_ID p T s = .error .redefinition := by
  simp only [CAF_ADD_TYPE_ID, h1, h2, hV]
  split_ifs <;> rfl

/-- The identifier of a type and the constants of an open block survive every accepted
invocation. -/
theorem expand_persists (d : Decl) (s t : Env) (h : d.expand s = .ok t) :
    (∀ T V, s.type_id.lookup T = some V → t.type_id.lookup T = some V)
    ∧ (∀ q i, s.type_id_counter_init.lookup q = some i
        → t.type_id_counter_init.lookup q = some i)
    ∧ (∀ q f, s.first_type_id.lookup q = some f → t.first_type_id.lookup q = some f) := by
  cases d with
  | BEGIN_TYPE_ID_BLOCK p f =>
    simp only [Decl.expand, CAF_BEGIN_TYPE_ID_BLOCK] at h
    split_ifs at h with hopen
    simp only [Except.ok.injEq] at h
    subst h
    simp only [not_or, Bool.not_eq_true, Option.not_isSome, Option.isNone_iff_eq_none] at hopen
    refine ⟨fun _ _ h => h, ?_, ?_⟩
    · intro q i hq
      have hne : q ≠ p := by
        intro e; rw [e, hopen.1] at hq; cases hq
      show ((p, _) :: s.type_id_counter_init).lookup q = some i
      rw [lookup_cons_ne _ _ _ _ hne]; exact hq
    · intro q f1 hq
      have hne : q ≠ p := by
        intro e; rw [e, hopen.2] at hq; cases hq
      show ((p, _) :: s.first_type_id).lookup q = some f1
      rw [lookup_cons_ne _ _ _ _ hne]; exact hq
  | ADD_TYPE_ID p T0 =>
    obtain ⟨first, counter_init, _, _, hT0, _, ht⟩ := CAF_ADD_TYPE_ID_accepted_env p T0 s t h
    subst ht
    refine ⟨?_, fun _ _ h => h, fun _ _ h => h⟩
    intro T V hT
    have hne : T ≠ T0 := by
      intro e; rw [e, hT0] at hT; cases hT
    show ((T0, _) :: s.type_id).lookup T = some V
    rw [lookup_cons_ne _ _ _ _ hne]; exact hT
  | ADD_ATOM p ns a text =>
    simp only [Decl.expand, CAF_ADD_ATOM] at h
    split at h
    · cases h
    · split_ifs at h
      simp only [Except.ok.injEq] at h
      subst h
      exact ⟨fun _ _ h => h, fun _ _ h => h, fun _ _ h => h⟩
  | END_TYPE_ID_BLOCK p =>
    simp only [Decl.expand, CAF_END_TYPE_ID_BLOCK] at h
    split at h
    · split_ifs at h
      simp only [Except.ok.injEq] at h
      subst h
      exact ⟨fun _ _ h => h, fun _ _ h => h, fun _ _ h => h⟩
    · cases h
  | COUNTER =>
    simp only [Decl.expand, Except.ok.injEq] at h
    subst h
    exact ⟨fun _ _ h => h, fun _ _ h => h, fun _ _ h => h⟩

theorem translate_persists (ds : List Decl) :
    ∀ (s t : Env), translate s ds = .ok t →
      (∀ T V, s.type_id.lookup T = some V → t.type_id.lookup T = some V)
      ∧ (∀ q i, s.type_id_counter_init.lookup q = some i
          → t.type_id_counter_init.lookup q = some i)
      ∧ (∀ q f, s.first_type_id.lookup q = some f → t.first_type_id.lookup q = some f) := by
  induction ds with
  | nil =>
    intro s t h
    simp only [translate, Except.ok.injEq] at h
    subst h
    exact ⟨fun _ _ h => h, fun _ _ h => h, fun _ _ h => h⟩
  | cons d ds ih =>
    intro s t h
    simp only [translate] at h
    cases hd : d.expand s with
    | error e => rw [hd] at h; cases h
    | ok s1 =>
      rw [hd] at h
      obtain ⟨a1, a2, a3⟩ := expand_persists d s s1 hd
      obtain ⟨b1, b2, b3⟩ := ih s1 t h
      exact ⟨fun T V hT => b1 T V (a1 T V hT), fun q i hq => b2 q i (a2 q i hq),
        fun q f hq => b3 q f (a3 q f hq)⟩

/-- An accepted sequence is accepted up to each of its points. -/
theorem translate_append_ok (a b : List Decl) :
    ∀ (s t : Env), translate s (a ++ b) = .ok t →
      ∃ m, translate s a = .ok m ∧ translate m b = .ok t := by
  induction a with
  | nil => intro s t h; exact ⟨s, rfl, h⟩
  | cons d ds ih =>
    intro s t h
    simp only [List.cons_append, translate] at h ⊢
    cases hd : d.expand s with
    | error e => rw [hd] at h; cases h
    | ok s1 =>
      rw [hd] at h
      exact ih s1 t h

theorem accepted_of_rejected_with (r : Except build_error Env) (h : rejected_with r = none) :
    ∃ t, r = .ok t := by
  cases r with
  | error e => cases h
  | ok t => exact ⟨t, rfl⟩

/-! ## C13: a block inside a reserved range -/

/-- C13, as stated, fails: opening a block checks nothing. After the header the block `demo`
opened with 49, inside the io range `[49, 68)` and below `first_custom_type_id`, is accepted;
its two types receive 49 and 50 and it publishes `[49, 51)`. -/
theorem C13_counterexample :
    (translate core_env (type_id_block "demo" 49 ["demo::a", "demo::b"])).toOption.map
        (fun u => (type_id_v u "demo::a", type_id_v u "demo::b", u.id_blocks.lookup "demo"))
      = some (some 49, some 50, some { «begin» := 49, «end» := 51 })
    ∧ rejected_with (translate core_env (type_id_block "demo" 49 ["demo::a", "demo::b"]))
      = none
    ∧ io_module_begin 49 ≤ 49 ∧ 50 < io_module_end 49 ∧ 49 < first_custom_type_id := by
  refine ⟨?_, ?_, ?_, ?_, ?_⟩ <;> decide

/-- After the header, a block on another project name opened at 49 or above, on types the
header does not register and within the 16-bit range, is accepted. -/
theorem header_block_accepted (c0 : Nat) (p : String) (firstId : Nat) (ts : List String)
    (hp : p ≠ "core_module") (hlo : 49 ≤ firstId) (hlen : firstId + ts.length ≤ 65536)
    (hnd : ts.Nodup) (hts : ∀ T ∈ ts, T ∉ core_module_types ∧ T ≠ "void") :
    ∃ env u, type_id_hpp c0 = .ok env
      ∧ translate env (type_id_block p firstId ts) = .ok u
      ∧ (∀ k T, ts[k]? = some T → type_id_v u T = some (firstId + k))
      ∧ u.id_blocks.lookup p
          = some { «begin» := to_type_id_t firstId,
                   «end» := to_type_id_t ((firstId : Int) + ts.length) } := by
  obtain ⟨env, h1, _, _, hblk, hlast, R, hci, hfi⟩ := type_id_hpp_env c0
  have hfb : env.fresh_block p := by
    refine ⟨?_, ?_, ?_, ?_⟩
    · rw [hci, lookup_cons_ne _ _ _ _ hp]; rfl
    · rw [hfi, lookup_cons_ne _ _ _ _ hp]; rfl
    · rw [hlast, lookup_cons_ne _ _ _ _ hp]; rfl
    · rw [hblk, lookup_cons_ne _ _ _ _ hp]; rfl
  have hft : env.fresh_types ts firstId := by
    refine ⟨?_, ?_⟩
    · intro T hT
      obtain ⟨hT1, hT2⟩ := hts T hT
      rw [R.type_id_old T hT1, R.type_name_old T hT1]
      refine ⟨rfl, ?_⟩
      show [("void", "void")].lookup T = none
      rw [lookup_cons_ne _ _ _ _ hT2]; rfl
    · intro k _
      have hlenT : core_module_types.length = 49 := by decide
      rw [R.type_by_id_old _ (Or.inr (by omega)), R.type_name_by_id_old _ (Or.inr (by omega))]
      exact ⟨rfl, rfl⟩
  obtain ⟨u, hu, K⟩ := translate_type_id_block env p firstId ts hfb hlen hnd hft
  refine ⟨env, u, h1, hu, K.registers.type_id_new, ?_⟩
  rw [K.id_blocks]
  exact lookup_cons_self _ _ _

/-- A block opened at a registered identifier is rejected at its first registration. -/
theorem block_on_registered_rejected (s : Env) (q : String) (f1 : Nat) (T1 : String)
    (rest : List Decl)
    (hq1 : s.type_id_counter_init.lookup q = none) (hq2 : s.first_type_id.lookup q = none)
    (hreg : (type_by_id_t s (to_type_id_t f1)).isSome = true) :
    rejected_with (translate s
        (Decl.BEGIN_TYPE_ID_BLOCK q f1 :: Decl.ADD_TYPE_ID q T1 :: rest))
      = some build_error.redefinition := by
  have hb := CAF_BEGIN_TYPE_ID_BLOCK_ok q f1 s hq1 hq2
  have hval : type_id_value (to_type_id_t f1) (to_type_id_t s.COUNTER) (s.COUNTER + 1)
      = to_type_id_t f1 := by
    unfold type_id_value to_type_id_t; omega
  have hrej := CAF_ADD_TYPE_ID_registered_id q T1
    { s with
      COUNTER := s.COUNTER + 1
      type_id_counter_init := (q, to_type_id_t s.COUNTER) :: s.type_id_counter_init
      first_type_id := (q, to_type_id_t f1) :: s.first_type_id }
    (to_type_id_t f1) (to_type_id_t s.COUNTER)
    (lookup_cons_self _ _ _) (lookup_cons_self _ _ _)
    (by show (s.type_by_id.lookup (type_id_value (to_type_id_t f1) (to_type_id_t s.COUNTER)
          (s.COUNTER + 1))).isSome = true
        rw [hval]; exact hreg)
  rw [translate_cons_ok (Decl.BEGIN_TYPE_ID_BLOCK q f1) _ s _ hb]
  simp only [translate, Decl.expand, hrej]
  rfl

/-- After the header, a block on another project name opened inside the core range is
rejected at its first registration. -/
theorem header_core_range_rejected (c0 : Nat) (q : String) (f1 : Nat) (T1 : String)
    (rest : List Decl) (hq : q ≠ "core_module") (hf : f1 < 49) :
    ∃ env, type_id_hpp c0 = .ok env
      ∧ (type_by_id_t env f1).isSome = true
      ∧ rejected_with (translate env
          (Decl.BEGIN_TYPE_ID_BLOCK q f1 :: Decl.ADD_TYPE_ID q T1 :: rest))
        = some build_error.redefinition := by
  obtain ⟨env, h1, _, _, _, _, R, hci, hfi⟩ := type_id_hpp_env c0
  have hlenT : core_module_types.length = 49 := by decide
  have hreg : (type_by_id_t env f1).isSome = true := by
    cases hk : core_module_types[f1]? with
    | none =>
      have hle := List.getElem?_eq_none_iff.mp hk
      omega
    | some T =>
      have hreg0 := R.type_by_id_new f1 T hk
      rw [Nat.zero_add] at hreg0
      unfold type_by_id_t; rw [hreg0]; rfl
  have hto : to_type_id_t (f1 : Int) = f1 := by unfold to_type_id_t; omega
  refine ⟨env, h1, hreg, ?_⟩
  exact block_on_registered_rejected env q f1 T1 rest
    (by rw [hci, lookup_cons_ne _ _ _ _ hq]; rfl)
    (by rw [hfi, lookup_cons_ne _ _ _ _ hq]; rfl)
    (by rw [hto]; exact hreg)

/-- C13 (amended): (1) `CAF_BEGIN_TYPE_ID_BLOCK` is accepted for every `first_id` on a project
name without block constants, in every environment: no range is checked. (2) After the
header alone, at every value of `__COUNTER__`, a block on a project name other than
`core_module` that is opened with `firstId ≥ 49` (thus also inside the io and net ranges and
anywhere below `first_custom_type_id`) and registers `N` pairwise distinct types, none of
them a type of the core module or `void`, with `firstId + N ≤ 65536`, is accepted; its types
receive `firstId, firstId + 1, ...` and it publishes `firstId` and `firstId + N` as 16-bit
values. (3) In every environment, a block on a project name without block constants whose
`first_id`, as a 16-bit value, is a registered identifier is rejected as a redefinition at a
`CAF_ADD_TYPE_ID` that directly follows its opening. (4) After the header alone every
identifier below 49 is registered, so such a block opened with `first_id < 49` is rejected
in this way. -/
theorem C13_no_range_check :
    (∀ (s : Env) (q : String) (f1 : Nat),
      s.type_id_counter_init.lookup q = none → s.first_type_id.lookup q = none →
      ∃ t, CAF_BEGIN_TYPE_ID_BLOCK q f1 s = .ok t)
    ∧ (∀ (c0 : Nat) (p : String) (firstId : Nat) (ts : List String),
      p ≠ "core_module" → 49 ≤ firstId → firstId + ts.length ≤ 65536 → ts.Nodup →
      (∀ T ∈ ts, T ∉ core_module_types ∧ T ≠ "void") →
      ∃ env u, type_id_hpp c0 = .ok env
        ∧ translate env (type_id_block p firstId ts) = .ok u
        ∧ (∀ k T, ts[k]? = some T → type_id_v u T = some (firstId + k))
        ∧ u.id_blocks.lookup p
            = some { «begin» := to_type_id_t firstId,
                     «end» := to_type_id_t ((firstId : Int) + ts.length) })
    ∧ (∀ (s : Env) (q : String) (f1 : Nat) (T1 : String) (rest : List Decl),
      s.type_id_counter_init.lookup q = none → s.first_type_id.lookup q = none →
      (type_by_id_t s (to_type_id_t f1)).isSome = true →
      rejected_with (translate s
          (Decl.BEGIN_TYPE_ID_BLOCK q f1 :: Decl.ADD_TYPE_ID q T1 :: rest))
        = some build_error.redefinition)
    ∧ (∀ (c0 : Nat) (q : String) (f1 : Nat) (T1 : String) (rest : List Decl),
      q ≠ "core_module" → f1 < 49 →
      ∃ env, type_id_hpp c0 = .ok env
        ∧ (type_by_id_t env f1).isSome = true
        ∧ rejected_with (translate env
            (Decl.BEGIN_TYPE_ID_BLOCK q f1 :: Decl.ADD_TYPE_ID q T1 :: rest))
          = some build_error.redefinition) :=
  ⟨fun s q f1 hq1 hq2 => ⟨_, CAF_BEGIN_TYPE_ID_BLOCK_ok q f1 s hq1 hq2⟩,
    fun c0 p firstId ts hp hlo hlen hnd hts =>
      header_block_accepted c0 p firstId ts hp hlo hlen hnd hts,
    fun s q f1 T1 rest hq1 hq2 hreg =>
      block_on_registered_rejected s q f1 T1 rest hq1 hq2 hreg,
    fun c0 q f1 T1 rest hq hf => header_core_range_rejected c0 q f1 T1 rest hq hf⟩

/-- Witness for C13: after the header, opening `demo` with 10 is accepted; the block `demo`
opened with 49 on two new types is accepted with the identifiers 49 and 50; the block `demo`
opened with 10, an identifier of the core module, is rejected at its first registration, in
`core_env` and after the header expanded at `__COUNTER__` 0. -/
theorem C13_no_range_check_witness :
    ((core_env.type_id_counter_init.lookup "demo" = none
        ∧ core_env.first_type_id.lookup "demo" = none)
      ∧ ∃ t, CAF_BEGIN_TYPE_ID_BLOCK "demo" 10 core_env = .ok t)
    ∧ (("demo" ≠ "core_module" ∧ 49 ≤ 49 ∧ 49 + ["demo::a", "demo::b"].length ≤ 65536
        ∧ ["demo::a", "demo::b"].Nodup
        ∧ (∀ T ∈ ["demo::a", "demo::b"], T ∉ core_module_types ∧ T ≠ "void"))
      ∧ ∃ env u, type_id_hpp 0 = .ok env
        ∧ translate env (type_id_block "demo" 49 ["demo::a", "demo::b"]) = .ok u
        ∧ (∀ k T, ["demo::a", "demo::b"][k]? = some T → type_id_v u T = some (49 + k))
        ∧ u.id_blocks.lookup "demo"
            = some { «begin» := to_type_id_t (49 : Nat),
                     «end» := to_type_id_t (((49 : Nat) : Int)
                        + ["demo::a", "demo::b"].length) })
    ∧ ((core_env.type_id_counter_init.lookup "demo" = none
        ∧ core_env.first_type_id.lookup "demo" = none
        ∧ (type_by_id_t core_env (to_type_id_t (10 : Nat))).isSome = true)
      ∧ rejected_with (translate core_env
          (Decl.BEGIN_TYPE_ID_BLOCK "demo" 10 :: Decl.ADD_TYPE_ID "demo" "demo::a"
            :: [Decl.END_TYPE_ID_BLOCK "demo"]))
        = some build_error.redefinition)
    ∧ (("demo" ≠ "core_module" ∧ 10 < 49)
      ∧ ∃ env, type_id_hpp 0 = .ok env
        ∧ (type_by_id_t env 10).isSome = true
        ∧ rejected_with (translate env
            (Decl.BEGIN_TYPE_ID_BLOCK "demo" 10 :: Decl.ADD_TYPE_ID "demo" "demo::a"
              :: [Decl.END_TYPE_ID_BLOCK "demo"]))
          = some build_error.redefinition) :=
  have h1 : "demo" ≠ "core_module" := by decide
  have h2 : 49 ≤ 49 := by decide
  have h3 : 49 + ["demo::a", "demo::b"].length ≤ 65536 := by decide
  have h4 : ["demo::a", "demo::b"].Nodup := by decide
  have h5 : ∀ T ∈ ["demo::a", "demo::b"], T ∉ core_module_types ∧ T ≠ "void" := by decide
  have h6 : core_env.type_id_counter_init.lookup "demo" = none := core_env_fresh_block_demo.1
  have h7 : core_env.first_type_id.lookup "demo" = none := core_env_fresh_block_demo.2.1
  have h8 : (type_by_id_t core_env (to_type_id_t (10 : Nat))).isSome = true := by decide
  have h9 : 10 < 49 := by decide
  ⟨⟨⟨h6, h7⟩, C13_no_range_check.1 core_env "demo" 10 h6 h7⟩,
    ⟨⟨h1, h2, h3, h4, h5⟩,
      C13_no_range_check.2.1 0 "demo" 49 ["demo::a", "demo::b"] h1 h2 h3 h4 h5⟩,
    ⟨⟨h6, h7, h8⟩,
      C13_no_range_check.2.2.1 core_env "demo" 10 "demo::a" [Decl.END_TYPE_ID_BLOCK "demo"]
        h6 h7 h8⟩,
    ⟨⟨h1, h9⟩,
      C13_no_range_check.2.2.2 0 "demo" 10 "demo::a" [Decl.END_TYPE_ID_BLOCK "demo"]
        h1 h9⟩⟩

/-! ## C14: a second registration of a type -/

/-- C14: let a sequence of invocations that registers `T` in the block `p` (after `pre`,
followed by `ds`) be accepted. Then `T` has the identifier given by that registration at
every later point, and the sequence continued by a second `CAF_ADD_TYPE_ID(p, T)` is rejected
at that invocation as a redefinition, whatever follows it: no environment results in which
the association of `T` is different. -/
theorem C14_duplicate_rejected (s : Env) (p T : String) (pre ds rest : List Decl)
    (hacc : rejected_with (translate s (pre ++ Decl.ADD_TYPE_ID p T :: ds)) = none) :
    ∃ s0 s1 t V, translate s pre = .ok s0
      ∧ CAF_ADD_TYPE_ID p T s0 = .ok s1 ∧ type_id_v s1 T = some V
      ∧ translate s (pre ++ Decl.ADD_TYPE_ID p T :: ds) = .ok t
      ∧ type_id_v t T = some V
      ∧ CAF_ADD_TYPE_ID p T t = .error .redefinition
      ∧ rejected_with
          (translate s (pre ++ Decl.ADD_TYPE_ID p T :: (ds ++ Decl.ADD_TYPE_ID p T :: rest)))
        = some build_error.redefinition := by
  obtain ⟨t, ht⟩ := accepted_of_rejected_with _ hacc
  obtain ⟨s0, hs0, h0⟩ := translate_append_ok pre _ s t ht
  have h0' := h0
  simp only [translate, Decl.expand] at h0'
  cases hadd : CAF_ADD_TYPE_ID p T s0 with
  | error e => rw [hadd] at h0'; cases h0'
  | ok s1 =>
    rw [hadd] at h0'
    obtain ⟨first, counter_init, hf, hc, _, _, hs1⟩ := CAF_ADD_TYPE_ID_accepted_env p T s0 s1 hadd
    have hV : s1.type_id.lookup T = some (type_id_value first counter_init s0.COUNTER) := by
      rw [hs1]; exact lookup_cons_self _ _ _
    have hf1 : s1.first_type_id.lookup p = some first := by rw [hs1]; exact hf
    have hc1 : s1.type_id_counter_init.lookup p = some counter_init := by rw [hs1]; exact hc
    obtain ⟨b1, b2, b3⟩ := translate_persists ds s1 t h0'
    have hrej := CAF_ADD_TYPE_ID_registered p T t first counter_init _ (b3 p first hf1)
      (b2 p counter_init hc1) (b1 T _ hV)
    refine ⟨s0, s1, t, _, hs0, hadd, hV, ht, b1 T _ hV, hrej, ?_⟩
    have e : pre ++ Decl.ADD_TYPE_ID p T :: (ds ++ Decl.ADD_TYPE_ID p T :: rest)
        = (pre ++ Decl.ADD_TYPE_ID p T :: ds) ++ Decl.ADD_TYPE_ID p T :: rest := by
      simp
    rw [e, translate_append _ _ s t ht]
    simp only [translate, Decl.expand, hrej]
    rfl

/-- Witness for C14: after the header, in the block `demo` opened with 200, the type
`demo::a` is registered, then `demo::b`, then `demo::a` again. -/
theorem C14_duplicate_rejected_witness :
    rejected_with (translate core_env ([Decl.BEGIN_TYPE_ID_BLOCK "demo" 200]
        ++ Decl.ADD_TYPE_ID "demo" "demo::a" :: [Decl.ADD_TYPE_ID "demo" "demo::b"])) = none
    ∧ ∃ s0 s1 t V, translate core_env [Decl.BEGIN_TYPE_ID_BLOCK "demo" 200] = .ok s0
      ∧ CAF_ADD_TYPE_ID "demo" "demo::a" s0 = .ok s1 ∧ type_id_v s1 "demo::a" = some V
      ∧ translate core_env ([Decl.BEGIN_TYPE_ID_BLOCK "demo" 200]
          ++ Decl.ADD_TYPE_ID "demo" "demo::a" :: [Decl.ADD_TYPE_ID "demo" "demo::b"]) = .ok t
      ∧ type_id_v t "demo::a" = some V
      ∧ CAF_ADD_TYPE_ID "demo" "demo::a" t = .error .redefinition
      ∧ rejected_with
          (translate core_env ([Decl.BEGIN_TYPE_ID_BLOCK "demo" 200]
            ++ Decl.ADD_TYPE_ID "demo" "demo::a" :: ([Decl.ADD_TYPE_ID "demo" "demo::b"]
              ++ Decl.ADD_TYPE_ID "demo" "demo::a" :: [Decl.END_TYPE_ID_BLOCK "demo"])))
        = some build_error.redefinition :=
  have h : rejected_with (translate core_env ([Decl.BEGIN_TYPE_ID_BLOCK "demo" 200]
      ++ Decl.ADD_TYPE_ID "demo" "demo::a" :: [Decl.ADD_TYPE_ID "demo" "demo::b"])) = none := by
    decide
  ⟨h, C14_duplicate_rejected core_env "demo" "demo::a" [Decl.BEGIN_TYPE_ID_BLOCK "demo" 200]
    [Decl.ADD_TYPE_ID "demo" "demo::b"] [Decl.END_TYPE_ID_BLOCK "demo"] h⟩

/-! ## C15: comparison of two optionals -/

/-- C15: `lhs == rhs` holds iff both are empty or both are present with payloads equal under
the payload's `operator==`; `lhs < rhs` holds iff `rhs` is present and `lhs` is empty or
`payload(lhs) < payload(rhs)` under the payload's `operator<`. An empty optional is less
than every present one and not less than an empty one. -/
theorem C15_comparison (T : Type) (eq lt : T → T → Bool) (lhs rhs : optional T) (a b : T) :
    (optional.operator_eq eq lhs rhs = true ↔
        (lhs = optional.none ∧ rhs = optional.none)
          ∨ ∃ x y, lhs = optional.some x ∧ rhs = optional.some y ∧ eq x y = true)
    ∧ (optional.operator_lt lt lhs rhs = true ↔
        ∃ y, rhs = optional.some y
          ∧ (lhs = optional.none ∨ ∃ x, lhs = optional.some x ∧ lt x y = true))
    ∧ optional.operator_eq eq (optional.some a) (optional.some b) = eq a b
    ∧ optional.operator_eq eq (optional.none : optional T) optional.none = true
    ∧ optional.operator_eq eq (optional.some a) optional.none = false
    ∧ optional.operator_eq eq optional.none (optional.some b) = false
    ∧ optional.operator_lt lt (optional.some a) (optional.some b) = lt a b
    ∧ optional.operator_lt lt optional.none (optional.some b) = true
    ∧ optional.operator_lt lt (optional.none : optional T) optional.none = false
    ∧ optional.operator_lt lt (optional.some a) optional.none = false := by
  refine ⟨?_, ?_, rfl, rfl, rfl, rfl, rfl, rfl, rfl, rfl⟩
  · cases lhs <;> cases rhs <;>
      simp [optional.operator_eq, optional.m_valid, optional.value]
  · cases lhs <;> cases rhs <;>
      simp [optional.operator_lt, optional.m_valid, optional.value]

/-! ## C16: `value_or` -/

/-- C16: `value_or` returns the payload of a present optional and the default of an empty
one, for `optional<T>` and for `optional<T&>`. -/
theorem C16_value_or (T : Type) (m_value default_value : T) :
    (optional.some m_value).value_or default_value = m_value
    ∧ (optional.none : optional T).value_or default_value = default_value
    ∧ (optional_ref.of_value m_value).value_or default_value = m_value
    ∧ (optional_ref.of_none : optional_ref T).value_or default_value = default_value
    ∧ (∀ x : optional T, x.value_or default_value
        = match x with
          | optional.some v => v
          | optional.none => default_value)
    ∧ (∀ x : optional_ref T, x.value_or default_value
        = match x.m_value with
          | some v => v
          | none => default_value) := by
  refine ⟨rfl, rfl, rfl, rfl, ?_, ?_⟩
  · intro x; cases x <;> rfl
  · intro x
    obtain ⟨m⟩ := x
    cases m <;> rfl

/-! ## C17: a block without registrations -/

/-- C17: a block on a fresh project name that is opened with a 16-bit `firstId` and closed
without a registration is accepted and publishes `end = begin = firstId`; its `last_type_id`
is `firstId - 1`, and 65535 for `firstId = 0`, from where `end` wraps back to 0. -/
theorem C17_empty_block (s : Env) (p : String) (firstId : Nat)
    (hp : s.fresh_block p) (hf : firstId < 65536) :
    ∃ u blk lastId, translate s [Decl.BEGIN_TYPE_ID_BLOCK p firstId, Decl.END_TYPE_ID_BLOCK p]
          = .ok u
      ∧ u.id_blocks.lookup p = some blk
      ∧ u.last_type_id.lookup p = some lastId
      ∧ blk.«begin» = firstId ∧ blk.«end» = blk.«begin»
      ∧ lastId = (if firstId = 0 then 65535 else firstId - 1)
      ∧ blk.«end» = to_type_id_t ((lastId : Int) + 1)
      ∧ (∀ T, type_id_v u T = type_id_v s T) := by
  have hnil : s.fresh_types [] firstId :=
    ⟨fun T hT => absurd hT (List.not_mem_nil T), fun k hk => absurd hk (Nat.not_lt_zero k)⟩
  obtain ⟨t, ht, O⟩ := translate_begin_adds s p firstId [] hp.1 hp.2.1
    (by simp; omega) List.nodup_nil hnil
  have he := CAF_END_TYPE_ID_BLOCK_ok p (to_type_id_t firstId) (to_type_id_t s.COUNTER)
    (if firstId = 0 then 65535 else firstId - 1) firstId t
    (by rw [O.first_type_id]; exact lookup_cons_self _ _ _)
    (by rw [O.type_id_counter_init]; exact lookup_cons_self _ _ _)
    (by rw [O.last_type_id]; exact hp.2.2.1) (by rw [O.id_blocks]; exact hp.2.2.2)
    (by rw [O.COUNTER]; unfold last_type_id_value to_type_id_t
        simp only [List.length_nil]; split_ifs <;> omega)
    (by unfold to_type_id_t; split_ifs <;> omega)
  have htr := (ht [Decl.END_TYPE_ID_BLOCK p]).trans
    (translate_cons_ok (Decl.END_TYPE_ID_BLOCK p) [] t _ he)
  have hfirst : to_type_id_t (firstId : Int) = firstId := by unfold to_type_id_t; omega
  refine ⟨_, { «begin» := to_type_id_t firstId, «end» := firstId },
    (if firstId = 0 then 65535 else firstId - 1), htr, lookup_cons_self _ _ _,
    lookup_cons_self _ _ _, hfirst, hfirst.symm, rfl, ?_, ?_⟩
  · show firstId = _
    unfold to_type_id_t; split_ifs <;> omega
  · intro T
    exact O.registers.type_id_old T (List.not_mem_nil T)

/-- Witness for C17: after the header, the block `demo` opened with 0 and closed at once. -/
theorem C17_empty_block_witness :
    (core_env.fresh_block "demo" ∧ (0 : Nat) < 65536)
    ∧ ∃ u blk lastId,
        translate core_env [Decl.BEGIN_TYPE_ID_BLOCK "demo" 0, Decl.END_TYPE_ID_BLOCK "demo"]
          = .ok u
      ∧ u.id_blocks.lookup "demo" = some blk
      ∧ u.last_type_id.lookup "demo" = some lastId
      ∧ blk.«begin» = 0 ∧ blk.«end» = blk.«begin»
      ∧ lastId = (if (0 : Nat) = 0 then 65535 else 0 - 1)
      ∧ blk.«end» = to_type_id_t ((lastId : Int) + 1)
      ∧ (∀ T, type_id_v u T = type_id_v core_env T) :=
  have h1 : core_env.fresh_block "demo" := core_env_fresh_block_demo
  have h2 : (0 : Nat) < 65536 := by decide
  ⟨⟨h1, h2⟩, C17_empty_block core_env "demo" 0 h1 h2⟩

/-! ## C18: the static assertion on the range table -/

/-- C18, as stated, fails for the core ends 65516 to 65535: there `core.end + 20` exceeds
`first_custom_type_id`, but the 16-bit sums wrap (for 65535: `io_module_end = 18`,
`net_module_end = 19`) and the assertion passes. -/
theorem C18_counterexample :
    io_module_end 65535 = 18 ∧ net_module_end 65535 = 19
    ∧ net_module_end_assertion 65535 = true
    ∧ first_custom_type_id < 65535 + 20
    ∧ net_module_end 65516 = 0 ∧ net_module_end_assertion 65516 = true := by
  refine ⟨?_, ?_, ?_, ?_, ?_, ?_⟩ <;> decide

/-- C18 (amended): for every 16-bit core end, `net_module_end` is `core.end + 20` reduced
modulo `2^16`, and the assertion `net_module_end <= first_custom_type_id` passes exactly when
`core.end + 20 ≤ first_custom_type_id` or `core.end ≥ 65516`, where the sums wrap; so for
every core end `≤ 65515` it fails exactly when `core.end + 20` exceeds
`first_custom_type_id`. -/
theorem C18_static_assertion (core_end : Nat) (h : core_end < 65536) :
    net_module_end core_end
        = (if core_end ≤ 65515 then core_end + 20 else core_end + 20 - 65536)
    ∧ (net_module_end_assertion core_end = true
        ↔ (core_end + 20 ≤ first_custom_type_id ∨ 65516 ≤ core_end))
    ∧ (net_module_end_assertion core_end = false
        ↔ (first_custom_type_id < core_end + 20 ∧ core_end ≤ 65515)) := by
  have hval : net_module_end core_end
      = if core_end ≤ 65515 then core_end + 20 else core_end + 20 - 65536 := by
    unfold net_module_end net_module_begin io_module_end io_module_begin to_type_id_t
    split_ifs <;> omega
  refine ⟨hval, ?_, ?_⟩
  · unfold net_module_end_assertion first_custom_type_id
    rw [decide_eq_true_eq, hval]
    split_ifs <;> omega
  · unfold net_module_end_assertion first_custom_type_id
    rw [decide_eq_false_iff_not, hval]
    split_ifs <;> omega

/-- Witness for C18: the shipped core end 49. -/
theorem C18_static_assertion_witness :
    (49 : Nat) < 65536
    ∧ net_module_end 49 = (if 49 ≤ 65515 then 49 + 20 else 49 + 20 - 65536)
    ∧ (net_module_end_assertion 49 = true
        ↔ (49 + 20 ≤ first_custom_type_id ∨ 65516 ≤ 49))
    ∧ (net_module_end_assertion 49 = false
        ↔ (first_custom_type_id < 49 + 20 ∧ 49 ≤ 65515)) :=
  have h1 : (49 : Nat) < 65536 := by decide
  ⟨h1, C18_static_assertion 49 h1⟩

/-! ## C19: round trip through `serialize` -/

/-- C19, evaluated: an empty optional survives the round trip for every payload codec and
every prior state of the target; a present one does not: saving `optional<uint8_t>` holding
42 gives the bytes `[1, 42]`, and loading them leaves the target empty (line 258), whatever
it held. Whenever loading the saved bytes of a present optional returns, the target is
empty. -/
theorem C19_round_trip (T : Type) (enc : T → List Nat)
    (dec : List Nat → Option (T × List Nat)) (v : T) (y : optional T) :
    serialize_loading (byte_source dec)
        (serialize_saving (byte_sink enc) [] (optional.none : optional T)).1 y
      = some ([], optional.none)
    ∧ (serialize_loading (byte_source dec)
        (serialize_saving (byte_sink enc) [] (optional.some v)).1 y).map Prod.snd
      ≠ some (optional.some v)
    ∧ (serialize_saving (byte_sink enc_uint8_t) [] (optional.some 42)).1 = [1, 42]
    ∧ serialize_loading (byte_source dec_uint8_t)
        (serialize_saving (byte_sink enc_uint8_t) [] (optional.some 42)).1 optional.none
      = some ([], optional.none)
    ∧ serialize_loading (byte_source dec_uint8_t)
        (serialize_saving (byte_sink enc_uint8_t) [] (optional.some 42)).1 (optional.some 7)
      = some ([], optional.none)
    ∧ dec_uint8_t (enc_uint8_t 42) = some (42, []) := by
  refine ⟨?_, ?_, rfl, rfl, rfl, rfl⟩
  · cases y <;> rfl
  · show (serialize_loading (byte_source dec) ([] ++ [1] ++ enc v) y).map Prod.snd ≠ _
    simp only [serialize_loading, byte_source, List.nil_append, List.singleton_append]
    cases dec (enc v) with
    | none => simp
    | some r =>
      obtain ⟨value, rest⟩ := r
      cases y <;> simp [optional.assign, optional.of_value, optional.of_none, optional.cr,
        optional.destroy, optional.m_valid]

/-! ## C20: mixed comparisons -/

/-- C20, evaluated: every comparison with a value and every comparison with `none` agrees
with the comparison of two optionals after wrapping, except `operator>=(none_t, optional)`
(lines 369-372): it returns `true` for every `x`, while `optional() >= x` is `false` for a
present `x`. -/
theorem C20_mixed_comparisons (T : Type) (eq lt : T → T → Bool) (x : optional T) (v w : T) :
    (optional.operator_eq_value eq x v = optional.operator_eq eq x (optional.of_value v)
      ∧ optional.value_operator_eq eq v x = optional.operator_eq eq (optional.of_value v) x
      ∧ optional.operator_ne_value eq x v = optional.operator_ne eq x (optional.of_value v)
      ∧ optional.value_operator_ne eq v x = optional.operator_ne eq (optional.of_value v) x
      ∧ optional.operator_lt_value lt x v = optional.operator_lt lt x (optional.of_value v)
      ∧ optional.value_operator_lt lt v x = optional.operator_lt lt (optional.of_value v) x
      ∧ optional.operator_le_value lt x v = optional.operator_le lt x (optional.of_value v)
      ∧ optional.value_operator_le lt v x = optional.operator_le lt (optional.of_value v) x
      ∧ optional.operator_gt_value lt x v = optional.operator_gt lt x (optional.of_value v)
      ∧ optional.value_operator_gt lt v x = optional.operator_gt lt (optional.of_value v) x
      ∧ optional.operator_ge_value lt x v = optional.operator_ge lt x (optional.of_value v)
      ∧ optional.value_operator_ge lt v x = optional.operator_ge lt (optional.of_value v) x)
    ∧ (optional.operator_eq_none x = optional.operator_eq eq x optional.of_none
      ∧ optional.none_operator_eq x = optional.operator_eq eq optional.of_none x
      ∧ optional.operator_ne_none x = optional.operator_ne eq x optional.of_none
      ∧ optional.none_operator_ne x = optional.operator_ne eq optional.of_none x
      ∧ optional.operator_lt_none x = optional.operator_lt lt x optional.of_none
      ∧ optional.none_operator_lt x = optional.operator_lt lt optional.of_none x
      ∧ optional.operator_le_none x = optional.operator_le lt x optional.of_none
      ∧ optional.none_operator_le x = optional.operator_le lt optional.of_none x
      ∧ optional.operator_gt_none x = optional.operator_gt lt x optional.of_none
      ∧ optional.none_operator_gt x = optional.operator_gt lt optional.of_none x
      ∧ optional.operator_ge_none x = optional.operator_ge lt x optional.of_none)
    ∧ optional.none_operator_ge (optional.some w) = true
    ∧ optional.operator_ge lt optional.of_none (optional.some w) = false
    ∧ optional.none_operator_ge (optional.none : optional T)
        = optional.operator_ge lt optional.of_none optional.none := by
  refine ⟨?_, ?_, rfl, rfl, rfl⟩
  · cases x <;>
      simp [optional.operator_eq_value, optional.value_operator_eq, optional.operator_ne_value,
        optional.value_operator_ne, optional.operator_lt_value, optional.value_operator_lt,
        optional.operator_le_value, optional.value_operator_le, optional.operator_gt_value,
        optional.value_operator_gt, optional.operator_ge_value, optional.value_operator_ge,
        optional.operator_eq, optional.operator_ne, optional.operator_lt, optional.operator_le,
        optional.operator_gt, optional.operator_ge, optional.of_value, optional.cr,
        optional.m_valid, optional.value]
  · cases x <;>
      simp [optional.operator_eq_none, optional.none_operator_eq, optional.operator_ne_none,
        optional.none_operator_ne, optional.operator_lt_none, optional.none_operator_lt,
        optional.operator_le_none, optional.none_operator_le, optional.operator_gt_none,
        optional.none_operator_gt, optional.operator_ge_none,
        optional.operator_eq, optional.operator_ne, optional.operator_lt, optional.operator_le,
        optional.operator_gt, optional.operator_ge, optional.of_none,
        optional.m_valid, optional.value]

/-! ## C21: the order on optionals -/

/-- C21: let the payload's `operator<` be irreflexive and transitive and let exactly one of
`x < y`, `x == y`, `y < x` hold for all payloads. Then for all optionals `a`, `b`, `c`:
`a < a` is false; `a < b` and `b < c` give `a < c`; exactly one of `a < b`, `a == b`,
`b < a` holds; `a <= b` iff `a < b` or `a == b`; `a >= b` iff `b <= a`; `a > b` iff `b < a`;
`a != b` iff not `a == b`. -/
theorem C21_strict_total_order (T : Type) (eq lt : T → T → Bool)
    (hirr : ∀ x, lt x x = false)
    (htrans : ∀ x y z, lt x y = true → lt y z = true → lt x z = true)
    (htri : ∀ x y,
      (lt x y = true ∧ eq x y = false ∧ lt y x = false)
        ∨ (lt x y = false ∧ eq x y = true ∧ lt y x = false)
        ∨ (lt x y = false ∧ eq x y = false ∧ lt y x = true))
    (a b c : optional T) :
    optional.operator_lt lt a a = false
    ∧ (optional.operator_lt lt a b = true → optional.operator_lt lt b c = true
        → optional.operator_lt lt a c = true)
    ∧ ((optional.operator_lt lt a b = true ∧ optional.operator_eq eq a b = false
          ∧ optional.operator_lt lt b a = false)
        ∨ (optional.operator_lt lt a b = false ∧ optional.operator_eq eq a b = true
          ∧ optional.operator_lt lt b a = false)
        ∨ (optional.operator_lt lt a b = false ∧ optional.operator_eq eq a b = false
          ∧ optional.operator_lt lt b a = true))
    ∧ (optional.operator_le lt a b = true
        ↔ (optional.operator_lt lt a b = true ∨ optional.operator_eq eq a b = true))
    ∧ (optional.operator_ge lt a b = true ↔ optional.operator_le lt b a = true)
    ∧ (optional.operator_gt lt a b = true ↔ optional.operator_lt lt b a = true)
    ∧ (optional.operator_ne eq a b = true ↔ ¬ optional.operator_eq eq a b = true) := by
  have hlt_ss : ∀ x y : T,
      optional.operator_lt lt (optional.some x) (optional.some y) = lt x y := fun _ _ => rfl
  have heq_ss : ∀ x y : T,
      optional.operator_eq eq (optional.some x) (optional.some y) = eq x y := fun _ _ => rfl
  have hlt_ns : ∀ y : T, optional.operator_lt lt optional.none (optional.some y) = true :=
    fun _ => rfl
  have hlt_sn : ∀ x : T, optional.operator_lt lt (optional.some x) optional.none = false :=
    fun _ => rfl
  have hlt_nn : optional.operator_lt lt (optional.none : optional T) optional.none = false :=
    rfl
  have heq_ns : ∀ y : T, optional.operator_eq eq optional.none (optional.some y) = false :=
    fun _ => rfl
  have heq_sn : ∀ x : T, optional.operator_eq eq (optional.some x) optional.none = false :=
    fun _ => rfl
  have heq_nn : optional.operator_eq eq (optional.none : optional T) optional.none = true :=
    rfl
  have htriab : (optional.operator_lt lt a b = true ∧ optional.operator_eq eq a b = false
          ∧ optional.operator_lt lt b a = false)
        ∨ (optional.operator_lt lt a b = false ∧ optional.operator_eq eq a b = true
          ∧ optional.operator_lt lt b a = false)
        ∨ (optional.operator_lt lt a b = false ∧ optional.operator_eq eq a b = false
          ∧ optional.operator_lt lt b a = true) := by
    cases a with
    | none =>
      cases b with
      | none => exact Or.inr (Or.inl ⟨hlt_nn, heq_nn, hlt_nn⟩)
      | some y => exact Or.inl ⟨hlt_ns y, heq_ns y, hlt_sn y⟩
    | some x =>
      cases b with
      | none => exact Or.inr (Or.inr ⟨hlt_sn x, heq_sn x, hlt_ns x⟩)
      | some y =>
        rw [hlt_ss, hlt_ss, heq_ss]
        exact htri x y
  refine ⟨?_, ?_, htriab, ?_, ?_, ?_, ?_⟩
  · cases a with
    | none => exact hlt_nn
    | some x => rw [hlt_ss]; exact hirr x
  · cases a with
    | none =>
      cases c with
      | none =>
        cases b with
        | none => intro h; rw [hlt_nn] at h; cases h
        | some y => intro _ h; rw [hlt_sn] at h; cases h
      | some z => intro _ _; exact hlt_ns z
    | some x =>
      cases b with
      | none => intro h; rw [hlt_sn] at h; cases h
      | some y =>
        cases c with
        | none => intro _ h; rw [hlt_sn] at h; cases h
        | some z =>
          rw [hlt_ss, hlt_ss, hlt_ss]
          exact htrans x y z
  · unfold optional.operator_le
    rcases htriab with ⟨h1, h2, h3⟩ | ⟨h1, h2, h3⟩ | ⟨h1, h2, h3⟩ <;> simp [h1, h2, h3]
  · unfold optional.operator_ge optional.operator_le
    exact Iff.rfl
  · unfold optional.operator_gt
    exact Iff.rfl
  · unfold optional.operator_ne
    simp

/-- Witness for C21: payloads are natural numbers with their order; `a` is empty, `b` holds
1 and `c` holds 2. -/
theorem C21_strict_total_order_witness :
    ((∀ x : Nat, decide (x < x) = false)
      ∧ (∀ x y z : Nat, decide (x < y) = true → decide (y < z) = true → decide (x < z) = true)
      ∧ (∀ x y : Nat,
          (decide (x < y) = true ∧ decide (x = y) = false ∧ decide (y < x) = false)
            ∨ (decide (x < y) = false ∧ decide (x = y) = true ∧ decide (y < x) = false)
            ∨ (decide (x < y) = false ∧ decide (x = y) = false ∧ decide (y < x) = true)))
    ∧ (optional.operator_lt (fun x y : Nat => decide (x < y)) optional.none optional.none
        = false
      ∧ (optional.operator_lt (fun x y : Nat => decide (x < y)) optional.none
            (optional.some 1) = true
          → optional.operator_lt (fun x y : Nat => decide (x < y)) (optional.some 1)
            (optional.some 2) = true
          → optional.operator_lt (fun x y : Nat => decide (x < y)) optional.none
            (optional.some 2) = true)
      ∧ ((optional.operator_lt (fun x y : Nat => decide (x < y)) optional.none
              (optional.some 1) = true
            ∧ optional.operator_eq (fun x y : Nat => decide (x = y)) optional.none
              (optional.some 1) = false
            ∧ optional.operator_lt (fun x y : Nat => decide (x < y)) (optional.some 1)
              optional.none = false)
          ∨ (optional.operator_lt (fun x y : Nat => decide (x < y)) optional.none
              (optional.some 1) = false
            ∧ optional.operator_eq (fun x y : Nat => decide (x = y)) optional.none
              (optional.some 1) = true
            ∧ optional.operator_lt (fun x y : Nat => decide (x < y)) (optional.some 1)
              optional.none = false)
          ∨ (optional.operator_lt (fun x y : Nat => decide (x < y)) optional.none
              (optional.some 1) = false
            ∧ optional.operator_eq (fun x y : Nat => decide (x = y)) optional.none
              (optional.some 1) = false
            ∧ optional.operator_lt (fun x y : Nat => decide (x < y)) (optional.some 1)
              optional.none = true))
      ∧ (optional.operator_le (fun x y : Nat => decide (x < y)) optional.none
            (optional.some 1) = true
          ↔ (optional.operator_lt (fun x y : Nat => decide (x < y)) optional.none
              (optional.some 1) = true
            ∨ optional.operator_eq (fun x y : Nat => decide (x = y)) optional.none
              (optional.some 1) = true))
      ∧ (optional.operator_ge (fun x y : Nat => decide (x < y)) optional.none
            (optional.some 1) = true
          ↔ optional.operator_le (fun x y : Nat => decide (x < y)) (optional.some 1)
            optional.none = true)
      ∧ (optional.operator_gt (fun x y : Nat => decide (x < y)) optional.none
            (optional.some 1) = true
          ↔ optional.operator_lt (fun x y : Nat => decide (x < y)) (optional.some 1)
            optional.none = true)
      ∧ (optional.operator_ne (fun x y : Nat => decide (x = y)) optional.none
            (optional.some 1) = true
          ↔ ¬ optional.operator_eq (fun x y : Nat => decide (x = y)) optional.none
            (optional.some 1) = true)) :=
  have h1 : ∀ x : Nat, decide (x < x) = false := by intro x; simp
  have h2 : ∀ x y z : Nat,
      decide (x < y) = true → decide (y < z) = true → decide (x < z) = true := by
    intro x y z hxy hyz
    simp only [decide_eq_true_eq] at hxy hyz ⊢
    omega
  have h3 : ∀ x y : Nat,
      (decide (x < y) = true ∧ decide (x = y) = false ∧ decide (y < x) = false)
        ∨ (decide (x < y) = false ∧ decide (x = y) = true ∧ decide (y < x) = false)
        ∨ (decide (x < y) = false ∧ decide (x = y) = false ∧ decide (y < x) = true) := by
    intro x y
    simp only [decide_eq_true_eq, decide_eq_false_iff_not]
    omega
  ⟨⟨h1, h2, h3⟩,
    C21_strict_total_order Nat (fun x y => decide (x = y)) (fun x y => decide (x < y))
      h1 h2 h3 optional.none (optional.some 1) (optional.some 2)⟩

/-! ## C22: assignment and construction -/

/-- C22: after the copy assignment `a = b` the target equals `b`, with the same presence and,
when present, the same payload (read through `value_or`), in each of the four presence
combinations, and `b` is as it was; an optional constructed from nothing or from `none` is
empty, one constructed from a value is present with that value, and a copy-constructed one
equals its source. -/
theorem C22_assignment (T : Type) (x y : T) (a b : optional T) :
    (optional.copy_assign a b).1 = b
    ∧ (optional.copy_assign a b).2 = b
    ∧ (optional.copy_assign a b).1.m_valid = b.m_valid
    ∧ (∀ default_value : T,
        (optional.copy_assign a b).1.value_or default_value = b.value_or default_value)
    ∧ optional.copy_assign (optional.some x) (optional.some y)
        = (optional.some y, optional.some y)
    ∧ optional.copy_assign (optional.some x) (optional.none : optional T)
        = (optional.none, optional.none)
    ∧ optional.copy_assign (optional.none : optional T) (optional.some y)
        = (optional.some y, optional.some y)
    ∧ optional.copy_assign (optional.none : optional T) optional.none
        = (optional.none, optional.none)
    ∧ (optional.of_none : optional T).m_valid = false
    ∧ (optional.of_value x).m_valid = true
    ∧ (optional.of_value x).value rfl = x
    ∧ optional.of_value x = optional.some x
    ∧ optional.of_optional b = b := by
  have hassign : a.assign b = b := by
    cases a <;> cases b <;> rfl
  refine ⟨hassign, rfl, ?_, ?_, rfl, rfl, rfl, rfl, rfl, rfl, rfl, rfl, ?_⟩
  · show (a.assign b).m_valid = b.m_valid
    rw [hassign]
  · intro default_value
    show (a.assign b).value_or default_value = b.value_or default_value
    rw [hassign]
  · cases b <;> rfl

end caf
